import Mathlib

/-
Verification of the Amazing Marvin MCP tool gateway
(`src/amazing_marvin_server.py`) against its natural-language
specification.  Strings are modelled as `List Char`; Python dictionaries
as ordered association lists; the remote API's JSON values as the
inductive `JValue`.  Each tool is modelled as a pure function taking the
validated input together with the remote API's response (the network is
the environment of the shallow embedding).
-/

namespace AmazingMarvin

/-- Python strings are modelled as lists of characters. -/
abbrev Str := List Char

/-- `CHARACTER_LIMIT = 25000` (maximum response size in characters). -/
def CHARACTER_LIMIT : Nat := 25000

/-- The newline character. -/
def nlChar : Char := '\n'

/-- A single newline, as a string. -/
def nl : Str := [nlChar]

-- ============================================================================
-- JSON values (model of Python dict / list / scalar payloads)
-- ============================================================================

/-- JSON-compatible values, as constructed by the tools and consumed from
the remote API.  Objects are ordered key-value lists, mirroring Python
dict insertion order. -/
inductive JValue where
  | null : JValue
  | bool (b : Bool) : JValue
  | num (n : Int) : JValue
  | str (s : Str) : JValue
  | arr (xs : List JValue) : JValue
  | obj (fields : List (Str × JValue)) : JValue

/-- First-match lookup in an ordered key-value list (Python dict access). -/
def jlookup (fields : List (Str × JValue)) (key : Str) : Option JValue :=
  match fields with
  | [] => none
  | (k, v) :: rest => if k = key then some v else jlookup rest key

/-- `x.get(key)` on an optional string field: JSON string or null. -/
def optJStr (x : Option Str) : JValue :=
  match x with
  | some s => JValue.str s
  | none => JValue.null

-- ============================================================================
-- Numeric rendering helpers (Python str / format)
-- ============================================================================

/-- Decimal digits of a natural number (Python `str(n)` for `n ≥ 0`). -/
def natStr (n : Nat) : Str := Nat.toDigits 10 n

/-- Python `str(i)` for integers. -/
def intStr (i : Int) : Str :=
  if i < 0 then '-' :: Nat.toDigits 10 i.natAbs else Nat.toDigits 10 i.toNat

/-- Helper for `commaFormat`: insert a comma after every three digits of a
reversed digit list. -/
def commaRev : Str → Str
  | a :: b :: c :: d :: rest => a :: b :: c :: ',' :: commaRev (d :: rest)
  | l => l

/-- Python `f"\x7bn:,\x7d"`: decimal digits grouped by thousands with commas. -/
def commaFormat (n : Nat) : Str :=
  ((commaRev (Nat.toDigits 10 n).reverse)).reverse

-- ============================================================================
-- Error normalizer: `_handle_api_error` (lines 101-136)
-- ============================================================================

/-- The exception taxonomy caught by the tools: `httpx.HTTPStatusError`
(with status code and response body), `httpx.TimeoutException`,
`httpx.ConnectError`, and any other exception (type name and message). -/
inductive ApiException where
  | httpStatusError (status : Nat) (body : Str) : ApiException
  | timeoutException : ApiException
  | connectError : ApiException
  | otherError (typeName message : Str) : ApiException

/-- 401 message of `_handle_api_error`. -/
def errMsg401 : Str :=
  ("Error: Invalid API token. Please check your AMAZING_MARVIN_API_TOKEN " ++
   "environment variable is set correctly. Get your token at " ++
   "https://app.amazingmarvin.com/pre?api=").toList

/-- 403 message of `_handle_api_error`. -/
def errMsg403 : Str :=
  ("Error: Permission denied. This operation requires full access token. " ++
   "Set AMAZING_MARVIN_FULL_TOKEN environment variable if needed.").toList

/-- 404 message of `_handle_api_error`. -/
def errMsg404 : Str :=
  ("Error: Resource not found. Please check that the ID is correct and " ++
   "the item still exists in Amazing Marvin.").toList

/-- 429 message of `_handle_api_error`. -/
def errMsg429 : Str :=
  ("Error: Rate limit exceeded. Please wait a moment before making more " ++
   "requests to the Amazing Marvin API.").toList

/-- `status >= 500` message of `_handle_api_error`. -/
def errMsg5xx : Str :=
  ("Error: Amazing Marvin server error. The service may be temporarily " ++
   "unavailable. Please try again in a few moments.").toList

/-- Generic other-status message of `_handle_api_error`. -/
def errMsgOtherStatus (status : Nat) : Str :=
  ("Error: API request failed with status ").toList ++ natStr status ++
  (". Please try again.").toList

/-- Timeout message of `_handle_api_error`. -/
def errMsgTimeout : Str :=
  ("Error: Request timed out. The Amazing Marvin API is taking too long to " ++
   "respond. Please try again.").toList

/-- Connection-failure message of `_handle_api_error`. -/
def errMsgConnect : Str :=
  ("Error: Cannot connect to Amazing Marvin API. Please check your internet " ++
   "connection and try again.").toList

/-- Catch-all message of `_handle_api_error`:
`f"Error: Unexpected error occurred - \x7btype(e).__name__\x7d: \x7bstr(e)\x7d"`. -/
def errMsgUnexpected (typeName message : Str) : Str :=
  ("Error: Unexpected error occurred - ").toList ++ typeName ++
  (": ").toList ++ message

/-- `_handle_api_error` (lines 101-136): consistent error formatting across
all tools.  Status branches are checked in source order: 401, 403, 404,
429, then `>= 500`, then the generic status message. -/
def handle_api_error (e : ApiException) : Str :=
  match e with
  | .httpStatusError status _ =>
    if status = 401 then errMsg401
    else if status = 403 then errMsg403
    else if status = 404 then errMsg404
    else if status = 429 then errMsg429
    else if 500 ≤ status then errMsg5xx
    else errMsgOtherStatus status
  | .timeoutException => errMsgTimeout
  | .connectError => errMsgConnect
  | .otherError typeName message => errMsgUnexpected typeName message

-- ============================================================================
-- Truncation guard: `_truncate_response` (lines 185-212)
-- ============================================================================

/-- Index of the last newline in a string, or `none` — model of Python
`str.rfind(chr(10))` where `none` stands for `-1`. -/
def lastNewlineIdx : Str → Option Nat
  | [] => none
  | c :: rest =>
    match lastNewlineIdx rest with
    | some j => some (j + 1)
    | none => if c = nlChar then some 0 else none

/-- Literal part of the truncation notice before the character count. -/
def noticeA : Str :=
  ("\n\n---\n**Response Truncated**: Showing partial results due to " ++
   "size limit (").toList

/-- Literal part of the truncation notice after the character count. -/
def noticeB : Str :=
  (" characters). To see more:\n" ++
   "- Use pagination with `limit` and `offset` parameters\n" ++
   "- Add filters to narrow down results\n" ++
   "- Request specific items by ID\n").toList

/-- The full truncation notice appended by `_truncate_response`, stating
the original character count (comma-grouped, as Python `:,` formatting). -/
def truncationNotice (origLen : Nat) : Str :=
  noticeA ++ commaFormat origLen ++ noticeB

/-- `_truncate_response(content, items_count)` (lines 185-212): return
`content` unchanged when within `CHARACTER_LIMIT`; otherwise cut at the
limit, trim back to the last newline when its index is positive, and
append the truncation notice. -/
def truncate_response (content : Str) (items_count : Nat) : Str :=
  if content.length ≤ CHARACTER_LIMIT then content
  else
    let truncated := content.take CHARACTER_LIMIT
    let trimmed :=
      match lastNewlineIdx truncated with
      | some j => if 0 < j then truncated.take j else truncated
      | none => truncated
    trimmed ++ truncationNotice content.length

-- ============================================================================
-- Timestamp / duration formatters: `_format_timestamp`, `_format_time_estimate`
-- (lines 139-182).  Python `datetime` local time is modelled as UTC.
-- ============================================================================

/-- Days-since-epoch to proleptic Gregorian civil date (year, month, day);
the standard civil-from-days algorithm, modelling `datetime.fromtimestamp`
at UTC. -/
def daysToCivil (z0 : Int) : Int × Int × Int :=
  let z := z0 + 719468
  let era := (if 0 ≤ z then z else z - 146096).fdiv 146097
  let doe := z - era * 146097
  let yoe := (doe - doe.fdiv 1460 + doe.fdiv 36524 - doe.fdiv 146096).fdiv 365
  let y := yoe + era * 400
  let doy := doe - (365 * yoe + yoe.fdiv 4 - yoe.fdiv 100)
  let mp := (5 * doy + 2).fdiv 153
  let d := doy - (153 * mp + 2).fdiv 5 + 1
  let m := if mp < 10 then mp + 3 else mp - 9
  (if m ≤ 2 then y + 1 else y, m, d)

/-- Civil date to days since epoch (model of `datetime.strptime` plus
epoch arithmetic, at UTC). -/
def civilToDays (y0 m d : Int) : Int :=
  let y := if m ≤ 2 then y0 - 1 else y0
  let era := (if 0 ≤ y then y else y - 399).fdiv 400
  let yoe := y - era * 400
  let mp := (m + 9).emod 12
  let doy := (153 * mp + 2).fdiv 5 + d - 1
  let doe := yoe * 365 + yoe.fdiv 4 - yoe.fdiv 100 + doy
  era * 146097 + doe - 719468

/-- Zero-padded fixed-width decimal rendering of a nonnegative integer
(`strftime` field padding). -/
def padNum (width : Nat) (i : Int) : Str :=
  let ds := Nat.toDigits 10 i.toNat
  List.replicate (width - ds.length) '0' ++ ds

/-- `strftime("%Y-%m-%d")` of an epoch-millisecond value, at UTC; `none`
models the `ValueError`/`OSError` raised for dates outside Python's
`datetime` year range 1..9999. -/
def strftimeYmd (ms : Int) : Option Str :=
  let days := ms.fdiv 86400000
  let c := daysToCivil days
  if 1 ≤ c.1 ∧ c.1 ≤ 9999 then
    some (padNum 4 c.1 ++ ('-' :: padNum 2 c.2.1) ++ ('-' :: padNum 2 c.2.2))
  else none

/-- The `"Not set"` placeholder. -/
def notSet : Str := ("Not set").toList

/-- `_format_timestamp(timestamp, default="Not set")` (lines 139-156):
absent or zero (falsy) timestamps, and out-of-range dates, yield the
default; otherwise the `YYYY-MM-DD` rendering. -/
def format_timestamp (timestamp : Option Int) (default : Str) : Str :=
  match timestamp with
  | none => default
  | some ts =>
    if ts = 0 then default
    else
      match strftimeYmd ts with
      | some s => s
      | none => default

/-- `_format_time_estimate(ms)` (lines 159-182): decompose milliseconds
into whole hours and remaining minutes (Python floor division and
modulo). -/
def format_time_estimate (ms? : Option Int) : Str :=
  match ms? with
  | none => notSet
  | some ms =>
    if ms = 0 then notSet
    else
      let hours := ms.fdiv 3600000
      let minutes := (ms.emod 3600000).fdiv 60000
      if hours ≠ 0 ∧ minutes ≠ 0 then
        intStr hours ++ ('h' :: ' ' :: intStr minutes) ++ ['m']
      else if hours ≠ 0 then intStr hours ++ ['h']
      else if minutes ≠ 0 then intStr minutes ++ ['m']
      else ('<' :: ' ' :: '1' :: 'm' :: [])

-- ============================================================================
-- Remote records and shared rendering constants
-- ============================================================================

/-- A record returned by the remote API (task, category, label or child
item).  Every field is optional; `none` models an absent key. -/
structure RemoteRecord where
  _id : Option Str := none
  title : Option Str := none
  done : Option Bool := none
  dueDate : Option Int := none
  day : Option Int := none
  timeEstimate : Option Int := none
  parentId : Option Str := none
  note : Option Str := none
  type : Option Str := none

/-- Python truthiness of an optional string (`None` and `""` are falsy). -/
def truthyStr (x : Option Str) : Bool :=
  match x with
  | some s => !s.isEmpty
  | none => false

/-- Python truthiness of an optional integer (`None` and `0` are falsy). -/
def truthyInt (x : Option Int) : Bool :=
  match x with
  | some n => n != 0
  | none => false

/-- Python truthiness of an optional boolean. -/
def truthyBool (x : Option Bool) : Bool :=
  match x with
  | some b => b
  | none => false

/-- The done-status glyph as literally present in the source file
(bytes of line 547). -/
def doneGlyph : Str := ("‚úÖ").toList

/-- The not-done glyph as literally present in the source file. -/
def notDoneGlyph : Str := ("‚¨ú").toList

/-- The project glyph of `marvin_get_children` as literally present in the
source file (line 1126). -/
def projGlyph : Str := ("üìÅ").toList

/-- Apostrophe character (avoids a bare quote in literals). -/
def apos : Char := Char.ofNat 39

/-- Markdown block-heading prefix. -/
def hdPfx : Str := ("## ").toList

/-- Markdown ID line prefix. -/
def idPfx : Str := ("- **ID**: ").toList

/-- Markdown due-date line prefix. -/
def duePfx : Str := ("- **Due**: ").toList

/-- Markdown time-estimate line prefix. -/
def estPfx : Str := ("- **Estimate**: ").toList

/-- Markdown project line prefix. -/
def projPfx : Str := ("- **Project**: ").toList

/-- Markdown note line prefix. -/
def notePfx : Str := ("- **Note**: ").toList

/-- Markdown type line prefix (children listing). -/
def typePfx : Str := ("- **Type**: ").toList

/-- The `"Untitled"` placeholder used when a record has no title. -/
def untitled : Str := ("Untitled").toList

/-- `f"Found \x7bn\x7d \x7bnoun\x7d\x7b:s if n != 1\x7d"` count line. -/
def foundLine (n : Nat) (noun : Str) : Str :=
  ("Found ").toList ++ natStr n ++ (' ' :: noun) ++ (if n ≠ 1 then ['s'] else [])

/-- `"\n".join(lines)`. -/
def joinLines (lines : List Str) : Str := List.intercalate nl lines

/-- JSON object key constants. -/
def kId : Str := ("id").toList

/-- JSON key `"title"`. -/
def kTitle : Str := ("title").toList

/-- JSON key `"done"`. -/
def kDone : Str := ("done").toList

/-- JSON key `"dueDate"`. -/
def kDueDate : Str := ("dueDate").toList

/-- JSON key `"timeEstimate"`. -/
def kTimeEstimate : Str := ("timeEstimate").toList

/-- JSON key `"parentId"`. -/
def kParentId : Str := ("parentId").toList

/-- JSON key `"note"`. -/
def kNote : Str := ("note").toList

/-- JSON key `"type"`. -/
def kType : Str := ("type").toList

/-- JSON key `"daysOverdue"`. -/
def kDaysOverdue : Str := ("daysOverdue").toList

/-- JSON key `"date"`. -/
def kDate : Str := ("date").toList

/-- JSON key `"asOf"`. -/
def kAsOf : Str := ("asOf").toList

/-- JSON key `"total"`. -/
def kTotal : Str := ("total").toList

/-- JSON key `"tasks"`. -/
def kTasks : Str := ("tasks").toList

/-- JSON key `"labels"`. -/
def kLabels : Str := ("labels").toList

/-- JSON key `"items"`. -/
def kItems : Str := ("items").toList

/-- JSON key `"parent_id"`. -/
def kParent_id : Str := ("parent_id").toList

-- ============================================================================
-- `json.dumps(..., indent=2)` serializer
-- ============================================================================

/-- The double-quote character. -/
def qChar : Char := Char.ofNat 34

/-- The backslash character. -/
def bsChar : Char := Char.ofNat 92

/-- Current indentation: two spaces per level (`indent=2`). -/
def indentStr (lvl : Nat) : Str := List.replicate (2 * lvl) ' '

/-- Four-hex-digit rendering used by `ensure_ascii` escapes. -/
def hex4 (n : Nat) : Str :=
  let ds := Nat.toDigits 16 n
  List.replicate (4 - ds.length) '0' ++ ds

/-- Escape of one character under `json.dumps` defaults (`ensure_ascii`):
ASCII printable characters pass through, everything else is escaped. -/
def jescapeChar (c : Char) : Str :=
  if c = qChar then bsChar :: [qChar]
  else if c = bsChar then bsChar :: [bsChar]
  else if c = nlChar then bsChar :: ['n']
  else if c = Char.ofNat 13 then bsChar :: ['r']
  else if c = Char.ofNat 9 then bsChar :: ['t']
  else if c = Char.ofNat 8 then bsChar :: ['b']
  else if c = Char.ofNat 12 then bsChar :: ['f']
  else if c.toNat < 32 ∨ 126 < c.toNat then
    if c.toNat < 65536 then bsChar :: 'u' :: hex4 c.toNat
    else
      let n := c.toNat - 65536
      (bsChar :: 'u' :: hex4 (55296 + n / 1024)) ++ (bsChar :: 'u' :: hex4 (56320 + n % 1024))
  else [c]

/-- JSON string-content escaping. -/
def jescape (s : Str) : Str := (s.map jescapeChar).flatten

mutual

/-- `json.dumps(v, indent=2)` at indentation level `lvl`. -/
def jdump : JValue → Nat → Str
  | .null, _ => ("null").toList
  | .bool true, _ => ("true").toList
  | .bool false, _ => ("false").toList
  | .num n, _ => intStr n
  | .str s, _ => qChar :: jescape s ++ [qChar]
  | .arr [], _ => '[' :: [']']
  | .arr (x :: xs), lvl =>
    ('[' :: nl) ++ jdumpItems (x :: xs) (lvl + 1) ++ nl ++ indentStr lvl ++ [']']
  | .obj [], _ => Char.ofNat 123 :: [Char.ofNat 125]
  | .obj (kv :: kvs), lvl =>
    (Char.ofNat 123 :: nl) ++ jdumpFields (kv :: kvs) (lvl + 1) ++ nl ++
      indentStr lvl ++ [Char.ofNat 125]

/-- Comma-and-newline separated array items, each on its own indented line. -/
def jdumpItems : List JValue → Nat → Str
  | [], _ => []
  | [x], lvl => indentStr lvl ++ jdump x lvl
  | x :: y :: rest, lvl =>
    indentStr lvl ++ jdump x lvl ++ (',' :: nl) ++ jdumpItems (y :: rest) lvl

/-- Comma-and-newline separated object fields, each on its own indented line. -/
def jdumpFields : List (Str × JValue) → Nat → Str
  | [], _ => []
  | [(k, v)], lvl =>
    indentStr lvl ++ (qChar :: jescape k) ++ (qChar :: ':' :: ' ' :: []) ++ jdump v lvl
  | (k, v) :: kv :: rest, lvl =>
    indentStr lvl ++ (qChar :: jescape k) ++ (qChar :: ':' :: ' ' :: []) ++ jdump v lvl ++
      (',' :: nl) ++ jdumpFields (kv :: rest) lvl

end

-- ============================================================================
-- Date-string pattern and `datetime.strptime("%Y-%m-%d")`
-- ============================================================================

/-- The anchored pattern `\d\x7b4\x7d-\d\x7b2\x7d-\d\x7b2\x7d` used by the
`day`, `due_date` and `date` fields: a full-string match of four digits,
a dash, two digits, a dash, two digits. -/
def matchesDatePattern (s : Str) : Bool :=
  match s with
  | [y1, y2, y3, y4, h1, m1, m2, h2, d1, d2] =>
    y1.isDigit && y2.isDigit && y3.isDigit && y4.isDigit && (h1 == '-') &&
    m1.isDigit && m2.isDigit && (h2 == '-') && d1.isDigit && d2.isDigit
  | _ => false

/-- Numeric value of a decimal digit character. -/
def digitVal (c : Char) : Nat := c.toNat - 48

/-- Gregorian leap-year test. -/
def isLeap (y : Int) : Bool :=
  (y.emod 4 == 0 && y.emod 100 != 0) || (y.emod 400 == 0)

/-- Number of days in a month. -/
def daysInMonth (y m : Int) : Int :=
  if m = 2 then (if isLeap y then 29 else 28)
  else if m = 4 ∨ m = 6 ∨ m = 9 ∨ m = 11 then 30
  else 31

/-- `datetime.strptime(s, "%Y-%m-%d")` followed by epoch-millisecond
conversion (at UTC): `none` models the `ValueError` raised for a string
not of the date shape or not a valid calendar date. -/
def dateStrToMs (s : Str) : Option Int :=
  match s with
  | [y1, y2, y3, y4, h1, m1, m2, h2, d1, d2] =>
    if matchesDatePattern [y1, y2, y3, y4, h1, m1, m2, h2, d1, d2] then
      let y : Int := (digitVal y1 * 1000 + digitVal y2 * 100 + digitVal y3 * 10 + digitVal y4 : Nat)
      let m : Int := (digitVal m1 * 10 + digitVal m2 : Nat)
      let d : Int := (digitVal d1 * 10 + digitVal d2 : Nat)
      if 1 ≤ y ∧ 1 ≤ m ∧ m ≤ 12 ∧ 1 ≤ d ∧ d ≤ daysInMonth y m then
        some (civilToDays y m d * 86400000)
      else none
    else none
  | _ => none

/-- Output format enumeration (`ResponseFormat`, lines 35-38). -/
inductive ResponseFormat where
  | markdown : ResponseFormat
  | json : ResponseFormat

/-- `params.date or datetime.now().strftime("%Y-%m-%d")` — the provided
date when truthy, else today's date (supplied as environment). -/
def target_dateOf (date : Option Str) (today : Str) : Str :=
  match date with
  | some d => if d.isEmpty then today else d
  | none => today

-- ============================================================================
-- `marvin_get_todays_tasks` (lines 468-590)
-- ============================================================================

/-- Markdown header lines of the today listing (lines 539-544). -/
def todaysHeader (target_date : Str) (n : Nat) : List Str :=
  [("# Today").toList ++ (apos :: ("s Tasks (").toList) ++ target_date ++ [')'],
   [],
   foundLine n (("task").toList),
   []]

/-- Markdown block emitted for one task by the today listing
(lines 546-564). -/
def todayTaskBlock (task : RemoteRecord) : List Str :=
  let status := if truthyBool task.done then doneGlyph else notDoneGlyph
  let title := task.title.getD untitled
  let task_id := task._id.getD []
  [hdPfx ++ status ++ (' ' :: title),
   idPfx ++ task_id]
  ++ (if truthyInt task.dueDate then [duePfx ++ format_timestamp task.dueDate notSet] else [])
  ++ (if truthyInt task.timeEstimate then [estPfx ++ format_time_estimate task.timeEstimate] else [])
  ++ (if truthyStr task.parentId then [projPfx ++ task.parentId.getD []] else [])
  ++ (if truthyStr task.note then [notePfx ++ (task.note.getD []).take 200] else [])
  ++ [[]]

/-- JSON per-task object of the today listing (lines 574-583). -/
def todayJsonTask (t : RemoteRecord) : List (Str × JValue) :=
  [(kId, optJStr t._id),
   (kTitle, optJStr t.title),
   (kDone, JValue.bool (t.done.getD false)),
   (kDueDate, if truthyInt t.dueDate then JValue.str (format_timestamp t.dueDate notSet) else JValue.null),
   (kTimeEstimate, if truthyInt t.timeEstimate then JValue.str (format_time_estimate t.timeEstimate) else JValue.null),
   (kParentId, optJStr t.parentId),
   (kNote, optJStr t.note)]

/-- JSON response object of the today listing (lines 570-585). -/
def todayJsonResponse (target_date : Str) (tasks : List RemoteRecord) : JValue :=
  JValue.obj
    [(kDate, JValue.str target_date),
     (kTotal, JValue.num tasks.length),
     (kTasks, JValue.arr (tasks.map (fun t => JValue.obj (todayJsonTask t))))]

/-- `marvin_get_todays_tasks` (lines 468-590), with the remote response —
the parsed body or the raised exception — as environment. -/
def marvin_get_todays_tasks (date : Option Str) (today : Str)
    (response_format : ResponseFormat)
    (resp : Except ApiException (List RemoteRecord)) : Str :=
  match resp with
  | .error e => handle_api_error e
  | .ok tasks =>
    let target_date := target_dateOf date today
    if tasks.isEmpty then
      ("No tasks scheduled for ").toList ++ target_date ++ ['.']
    else
      match response_format with
      | .markdown =>
        truncate_response
          (joinLines (todaysHeader target_date tasks.length ++
            (tasks.map todayTaskBlock).flatten))
          tasks.length
      | .json =>
        truncate_response (jdump (todayJsonResponse target_date tasks) 0) tasks.length

-- ============================================================================
-- `marvin_get_due_tasks` (lines 664-805)
-- ============================================================================

/-- `(target_dt - due_dt).days`: whole-day difference, in floor semantics,
between the reference date (epoch ms) and the record's due date. -/
def daysDiffOf (targetMs : Int) (t : RemoteRecord) : Int :=
  (targetMs - t.dueDate.getD 0).fdiv 86400000

/-- The `" [OVERDUE]"` tag. -/
def overdueTag : Str := (" [OVERDUE]").toList

/-- The `" [DUE TODAY]"` tag. -/
def dueTodayTag : Str := (" [DUE TODAY]").toList

/-- Overdue tag computation of the due listing (lines 752-759). -/
def overdueTagOf (targetMs : Int) (t : RemoteRecord) : Str :=
  if truthyInt t.dueDate then
    if 0 < daysDiffOf targetMs t then overdueTag
    else if daysDiffOf targetMs t = 0 then dueTodayTag
    else []
  else []

/-- Markdown header lines of the due listing (lines 738-743). -/
def dueHeader (target_date : Str) (n : Nat) : List Str :=
  [("# Due & Overdue Tasks (as of ").toList ++ target_date ++ [')'],
   [],
   foundLine n (("task").toList) ++ (" requiring attention").toList,
   []]

/-- Markdown block emitted for one task by the due listing
(lines 745-771). -/
def dueTaskBlock (targetMs : Int) (task : RemoteRecord) : List Str :=
  let status := if truthyBool task.done then doneGlyph else notDoneGlyph
  let title := task.title.getD untitled
  let task_id := task._id.getD []
  let due_date_str := format_timestamp task.dueDate notSet
  [hdPfx ++ status ++ (' ' :: title) ++ overdueTagOf targetMs task,
   idPfx ++ task_id,
   duePfx ++ due_date_str]
  ++ (if truthyInt task.timeEstimate then [estPfx ++ format_time_estimate task.timeEstimate] else [])
  ++ (if truthyStr task.note then [notePfx ++ (task.note.getD []).take 200] else [])
  ++ [[]]

/-- JSON per-task object of the due listing (lines 783-799): core fields,
then `daysOverdue` exactly when the record has a truthy due date and the
difference is positive. -/
def dueJsonTask (targetMs : Int) (t : RemoteRecord) : List (Str × JValue) :=
  [(kId, optJStr t._id),
   (kTitle, optJStr t.title),
   (kDone, JValue.bool (t.done.getD false)),
   (kDueDate, if truthyInt t.dueDate then JValue.str (format_timestamp t.dueDate notSet) else JValue.null),
   (kTimeEstimate, if truthyInt t.timeEstimate then JValue.str (format_time_estimate t.timeEstimate) else JValue.null)]
  ++ (if truthyInt t.dueDate then
        (if 0 < daysDiffOf targetMs t then [(kDaysOverdue, JValue.num (daysDiffOf targetMs t))] else [])
      else [])

/-- JSON response object of the due listing (lines 777-799). -/
def dueJsonResponse (target_date : Str) (targetMs : Int)
    (tasks : List RemoteRecord) : JValue :=
  JValue.obj
    [(kAsOf, JValue.str target_date),
     (kTotal, JValue.num tasks.length),
     (kTasks, JValue.arr (tasks.map (fun t => JValue.obj (dueJsonTask targetMs t))))]

/-- `marvin_get_due_tasks` (lines 664-805).  The empty-collection check
precedes the `strptime` of the target date, as in the source; a failed
parse surfaces through the generic error branch (`ValueError` message
abbreviated — no claim depends on its text). -/
def marvin_get_due_tasks (date : Option Str) (today : Str)
    (response_format : ResponseFormat)
    (resp : Except ApiException (List RemoteRecord)) : Str :=
  match resp with
  | .error e => handle_api_error e
  | .ok tasks =>
    let target_date := target_dateOf date today
    if tasks.isEmpty then
      ("No due or overdue tasks as of ").toList ++ target_date ++ ['.']
    else
      match dateStrToMs target_date with
      | none =>
        handle_api_error (.otherError (("ValueError").toList)
          (("time data does not match format ").toList ++ target_date))
      | some targetMs =>
        match response_format with
        | .markdown =>
          truncate_response
            (joinLines (dueHeader target_date tasks.length ++
              (tasks.map (dueTaskBlock targetMs)).flatten))
            tasks.length
        | .json =>
          truncate_response (jdump (dueJsonResponse target_date targetMs tasks) 0) tasks.length

-- ============================================================================
-- `marvin_get_labels` (lines 940-1031)
-- ============================================================================

/-- Markdown block emitted for one label (lines 1005-1011). -/
def labelBlock (label : RemoteRecord) : List Str :=
  [hdPfx ++ label.title.getD untitled,
   idPfx ++ label._id.getD [],
   []]

/-- JSON response object of the label listing (lines 1017-1026). -/
def labelsJsonResponse (labels : List RemoteRecord) : JValue :=
  JValue.obj
    [(kTotal, JValue.num labels.length),
     (kLabels, JValue.arr (labels.map (fun l =>
       JValue.obj [(kId, optJStr l._id), (kTitle, optJStr l.title)])))]

/-- `marvin_get_labels` (lines 940-1031). -/
def marvin_get_labels (response_format : ResponseFormat)
    (resp : Except ApiException (List RemoteRecord)) : Str :=
  match resp with
  | .error e => handle_api_error e
  | .ok labels =>
    if labels.isEmpty then ("No labels found.").toList
    else
      match response_format with
      | .markdown =>
        truncate_response
          (joinLines ([("# Labels").toList, [], foundLine labels.length (("label").toList), []] ++
            (labels.map labelBlock).flatten))
          labels.length
      | .json =>
        truncate_response (jdump (labelsJsonResponse labels) 0) labels.length

-- ============================================================================
-- `marvin_get_children` (lines 1044-1165)
-- ============================================================================

/-- Markdown block emitted for one child item (lines 1120-1139). -/
def childBlock (item : RemoteRecord) : List Str :=
  let status := if truthyBool item.done then doneGlyph else notDoneGlyph
  let title := item.title.getD untitled
  let item_type := item.type.getD (("task").toList)
  let item_id := item._id.getD []
  let type_emoji := if item_type = ("project").toList then projGlyph else status
  [hdPfx ++ type_emoji ++ (' ' :: title) ++ (' ' :: '(' :: item_type) ++ [')'],
   idPfx ++ item_id,
   typePfx ++ item_type]
  ++ (if truthyInt item.dueDate then [duePfx ++ format_timestamp item.dueDate notSet] else [])
  ++ (if truthyInt item.timeEstimate then [estPfx ++ format_time_estimate item.timeEstimate] else [])
  ++ (if truthyStr item.note then [notePfx ++ (item.note.getD []).take 150] else [])
  ++ [[]]

/-- JSON per-item object of the children listing (lines 1148-1159). -/
def childJsonItem (i : RemoteRecord) : List (Str × JValue) :=
  [(kId, optJStr i._id),
   (kTitle, optJStr i.title),
   (kType, optJStr i.type),
   (kDone, JValue.bool (i.done.getD false)),
   (kDueDate, if truthyInt i.dueDate then JValue.str (format_timestamp i.dueDate notSet) else JValue.null),
   (kTimeEstimate, if truthyInt i.timeEstimate then JValue.str (format_time_estimate i.timeEstimate) else JValue.null),
   (kNote, optJStr i.note)]

/-- JSON response object of the children listing (lines 1145-1160). -/
def childrenJsonResponse (parent_id : Str) (items : List RemoteRecord) : JValue :=
  JValue.obj
    [(kParent_id, JValue.str parent_id),
     (kTotal, JValue.num items.length),
     (kItems, JValue.arr (items.map (fun i => JValue.obj (childJsonItem i))))]

/-- `marvin_get_children` (lines 1044-1165). -/
def marvin_get_children (parent_id : Str) (response_format : ResponseFormat)
    (resp : Except ApiException (List RemoteRecord)) : Str :=
  match resp with
  | .error e => handle_api_error e
  | .ok items =>
    if items.isEmpty then
      ("No items found under parent ID: ").toList ++ parent_id
    else
      match response_format with
      | .markdown =>
        truncate_response
          (joinLines ([("# Items in: ").toList ++ parent_id, [],
            foundLine items.length (("item").toList), []] ++
            (items.map childBlock).flatten))
          items.length
      | .json =>
        truncate_response (jdump (childrenJsonResponse parent_id items) 0) items.length

-- ============================================================================
-- `marvin_mark_done` (lines 603-651)
-- ============================================================================

/-- `marvin_mark_done` (lines 603-651): POSTs the item id, returns the
success confirmation, or the normalized error message on any exception. -/
def marvin_mark_done (item_id : Str) (resp : Except ApiException JValue) : Str :=
  match resp with
  | .error e => handle_api_error e
  | .ok _ =>
    ("‚úÖ Task marked as complete!\n\n**Task ID**: ").toList ++ item_id

-- ============================================================================
-- Validation layer (pydantic input models, lines 41-47 and 219-349)
-- ============================================================================

/-- Python `str.strip()` as applied by `str_strip_whitespace=True`. -/
def pstrip (s : Str) : Str :=
  (((s.dropWhile Char.isWhitespace).reverse).dropWhile Char.isWhitespace).reverse

/-- Raw (pre-validation) payload for `AddTaskInput`: each declared field
optionally present, plus the names of any unknown fields in the payload
(rejected by `extra='forbid'`). -/
structure RawAddTaskInput where
  title : Option Str := none
  note : Option Str := none
  day : Option Str := none
  due_date : Option Str := none
  parent_id : Option Str := none
  label_ids : Option (List Str) := none
  time_estimate : Option Int := none
  is_starred : Option Bool := none
  extraFields : List Str := []

/-- Validated `AddTaskInput` (lines 219-282). -/
structure AddTaskInput where
  title : Str
  note : Option Str := none
  day : Option Str := none
  due_date : Option Str := none
  parent_id : Option Str := none
  label_ids : Option (List Str) := none
  time_estimate : Option Int := none
  is_starred : Option Bool := none

/-- All constraint violations of a raw `AddTaskInput` payload, in field
order: `extra='forbid'`, title required and 1..500 chars after strip,
note ≤ 5000 chars, day and due_date full-string date pattern,
label_ids ≤ 20 entries, time_estimate in [60000, 86400000]. -/
def addTaskErrors (raw : RawAddTaskInput) : List Str :=
  (raw.extraFields.map (fun f => f ++ (": extra inputs are not permitted").toList))
  ++ (match raw.title with
      | none => [("title: field required").toList]
      | some t0 =>
        let t := pstrip t0
        (if t.length < 1 then [("title: too short").toList] else [])
        ++ (if 500 < t.length then [("title: too long").toList] else []))
  ++ (match raw.note with
      | some n0 => if 5000 < (pstrip n0).length then [("note: too long").toList] else []
      | none => [])
  ++ (match raw.day with
      | some d0 => if !matchesDatePattern (pstrip d0) then [("day: pattern mismatch").toList] else []
      | none => [])
  ++ (match raw.due_date with
      | some d0 => if !matchesDatePattern (pstrip d0) then [("due_date: pattern mismatch").toList] else []
      | none => [])
  ++ (match raw.label_ids with
      | some ls => if 20 < ls.length then [("label_ids: too long").toList] else []
      | none => [])
  ++ (match raw.time_estimate with
      | some te =>
        (if te < 60000 then [("time_estimate: below minimum").toList] else [])
        ++ (if 86400000 < te then [("time_estimate: above maximum").toList] else [])
      | none => [])

/-- Schema validation of a raw `AddTaskInput` payload: all violations are
collected (pydantic `ValidationError`), and only a violation-free payload
produces a typed input (with whitespace stripped from text fields). -/
def validateAddTask (raw : RawAddTaskInput) : Except (List Str) AddTaskInput :=
  if addTaskErrors raw = [] then
    Except.ok
      { title := pstrip (raw.title.getD []),
        note := raw.note.map pstrip,
        day := raw.day.map pstrip,
        due_date := raw.due_date.map pstrip,
        parent_id := raw.parent_id.map pstrip,
        label_ids := raw.label_ids.map (List.map pstrip),
        time_estimate := raw.time_estimate,
        is_starred := raw.is_starred }
  else Except.error (addTaskErrors raw)

/-- Raw payload for `GetTasksInput` (lines 285-301). -/
structure RawGetTasksInput where
  date : Option Str := none
  response_format : Option Str := none
  extraFields : List Str := []

/-- Validated `GetTasksInput`. -/
structure GetTasksInput where
  date : Option Str := none
  response_format : ResponseFormat := ResponseFormat.markdown

/-- Enum validation of `response_format` with its default. -/
def parseResponseFormat (s? : Option Str) : Option ResponseFormat :=
  match s? with
  | none => some ResponseFormat.markdown
  | some s =>
    if s = ("markdown").toList then some ResponseFormat.markdown
    else if s = ("json").toList then some ResponseFormat.json
    else none

/-- All constraint violations of a raw `GetTasksInput` payload. -/
def getTasksErrors (raw : RawGetTasksInput) : List Str :=
  (raw.extraFields.map (fun f => f ++ (": extra inputs are not permitted").toList))
  ++ (match raw.date with
      | some d0 => if !matchesDatePattern (pstrip d0) then [("date: pattern mismatch").toList] else []
      | none => [])
  ++ (match parseResponseFormat raw.response_format with
      | some _ => []
      | none => [("response_format: invalid enumeration member").toList])

/-- Schema validation of a raw `GetTasksInput` payload. -/
def validateGetTasks (raw : RawGetTasksInput) : Except (List Str) GetTasksInput :=
  if getTasksErrors raw = [] then
    Except.ok
      { date := raw.date.map pstrip,
        response_format := (parseResponseFormat raw.response_format).getD ResponseFormat.markdown }
  else Except.error (getTasksErrors raw)

/-- Raw payload for `MarkDoneInput` (lines 304-313). -/
structure RawMarkDoneInput where
  item_id : Option Str := none
  extraFields : List Str := []

/-- All constraint violations of a raw `MarkDoneInput` payload:
`extra='forbid'` and `item_id` required with min length 1 after strip. -/
def markDoneErrors (raw : RawMarkDoneInput) : List Str :=
  (raw.extraFields.map (fun f => f ++ (": extra inputs are not permitted").toList))
  ++ (match raw.item_id with
      | none => [("item_id: field required").toList]
      | some i0 => if (pstrip i0).length < 1 then [("item_id: too short").toList] else [])

/-- Schema validation of a raw `MarkDoneInput` payload. -/
def validateMarkDone (raw : RawMarkDoneInput) : Except (List Str) Str :=
  if markDoneErrors raw = [] then Except.ok (pstrip (raw.item_id.getD []))
  else Except.error (markDoneErrors raw)

-- ============================================================================
-- API requests and the validation-before-network pipeline
-- ============================================================================

/-- HTTP methods supported by `_make_api_request`. -/
inductive HttpMethod where
  | GET : HttpMethod
  | POST : HttpMethod

/-- One request issued through `_make_api_request` (lines 61-98). -/
structure ApiRequest where
  endpoint : Str
  method : HttpMethod
  data : Option (List (Str × JValue)) := none
  queryParams : Option (List (Str × Str)) := none

/-- JSON key `"day"`. -/
def kDay : Str := ("day").toList

/-- JSON key `"labelIds"`. -/
def kLabelIds : Str := ("labelIds").toList

/-- JSON key `"isStarred"`. -/
def kIsStarred : Str := ("isStarred").toList

/-- JSON key `"itemId"`. -/
def kItemId : Str := ("itemId").toList

/-- `if x is not None: task_data[k] = f(x)` — the conditional entry each
optional field contributes to the POST body. -/
def optEntry {α : Type} (k : Str) (f : α → JValue) (x : Option α) : List (Str × JValue) :=
  match x with
  | some v => [(k, f v)]
  | none => []

/-- POST body built by `marvin_add_task` (lines 412-432): title and
`done: false` always, then one key per supplied optional field, in source
order. -/
def build_task_data (p : AddTaskInput) : List (Str × JValue) :=
  [(kTitle, JValue.str p.title), (kDone, JValue.bool false)]
  ++ optEntry kNote JValue.str p.note
  ++ optEntry kDay JValue.str p.day
  ++ optEntry kDueDate JValue.str p.due_date
  ++ optEntry kParentId JValue.str p.parent_id
  ++ optEntry kLabelIds (fun ls => JValue.arr (ls.map JValue.str)) p.label_ids
  ++ optEntry kTimeEstimate JValue.num p.time_estimate
  ++ optEntry kIsStarred JValue.bool p.is_starred

/-- Network requests issued by an invocation of `marvin_add_task` on a raw
payload: the protocol layer validates against the schema before the tool
body runs, so a payload that fails validation issues none. -/
def addTaskRequestTrace (raw : RawAddTaskInput) : List ApiRequest :=
  match validateAddTask raw with
  | .error _ => []
  | .ok p => [{ endpoint := ("/addTask").toList, method := HttpMethod.POST,
                data := some (build_task_data p) }]

/-- Network requests issued by an invocation of `marvin_get_todays_tasks`
on a raw payload. -/
def todaysRequestTrace (raw : RawGetTasksInput) (today : Str) : List ApiRequest :=
  match validateGetTasks raw with
  | .error _ => []
  | .ok p => [{ endpoint := ("/todayItems").toList, method := HttpMethod.GET,
                queryParams := some [(kDate, target_dateOf p.date today)] }]

/-- Network requests issued by an invocation of `marvin_mark_done` on a
raw payload. -/
def markDoneRequestTrace (raw : RawMarkDoneInput) : List ApiRequest :=
  match validateMarkDone raw with
  | .error _ => []
  | .ok item_id => [{ endpoint := ("/markDone").toList, method := HttpMethod.POST,
                      data := some [(kItemId, JValue.str item_id)] }]

/-- `marvin_add_task` success rendering (lines 436-452). -/
def marvin_add_task (p : AddTaskInput) (resp : Except ApiException RemoteRecord) : Str :=
  match resp with
  | .error e => handle_api_error e
  | .ok result =>
    joinLines
      ([("‚úÖ Task created successfully!").toList,
        [],
        ("**ID**: ").toList ++ result._id.getD (("N/A").toList),
        ("**Title**: ").toList ++ result.title.getD (("N/A").toList)]
       ++ (if truthyInt result.day then [("**Scheduled**: ").toList ++ format_timestamp result.day notSet] else [])
       ++ (if truthyInt result.dueDate then [("**Due**: ").toList ++ format_timestamp result.dueDate notSet] else [])
       ++ (if truthyInt result.timeEstimate then [("**Time Estimate**: ").toList ++ format_time_estimate result.timeEstimate] else []))

-- ============================================================================
-- Helper lemmas
-- ============================================================================

/-- `isPrefixOf` holds on an extension of the prefix itself. -/
theorem isPrefixOf_self_append (p s : Str) : p.isPrefixOf (p ++ s) = true :=
  List.isPrefixOf_iff_prefix.mpr (List.prefix_append p s)

/-- If `p` fails to be a prefix already within the concrete head `q`, then
it fails on any extension `q ++ s`. -/
theorem isPrefixOf_append_false (p q s : Str)
    (h : (p.take q.length).isPrefixOf q = false) : p.isPrefixOf (q ++ s) = false := by
  induction p generalizing q with
  | nil => simp [List.isPrefixOf] at h
  | cons a as ih =>
    cases q with
    | nil => simp [List.isPrefixOf] at h
    | cons b bs =>
      simp only [List.length_cons, List.take_succ_cons, List.isPrefixOf, Bool.and_eq_false_iff] at h
      rcases h with h | h
      · simp [List.isPrefixOf, h]
      · simp only [List.cons_append, List.isPrefixOf, Bool.and_eq_false_iff]
        exact Or.inr (ih bs h)

/-- A nonempty pattern is no prefix of the empty line. -/
theorem isPrefixOf_nil_false (a : Char) (p : Str) : (a :: p).isPrefixOf ([] : Str) = false := rfl

/-- The index returned by `lastNewlineIdx` holds a newline. -/
theorem lastNewlineIdx_mem {l : Str} {j : Nat} (h : lastNewlineIdx l = some j) :
    l[j]? = some nlChar := by
  induction l generalizing j with
  | nil => simp [lastNewlineIdx] at h
  | cons c rest ih =>
    simp only [lastNewlineIdx] at h
    cases hr : lastNewlineIdx rest with
    | some j' =>
      rw [hr] at h
      cases h
      simpa using ih hr
    | none =>
      rw [hr] at h
      by_cases hc : c = nlChar
      · rw [if_pos hc] at h
        cases h
        simpa using hc
      · rw [if_neg hc] at h
        cases h

/-- A `none` result of `lastNewlineIdx` means no newline at all. -/
theorem lastNewlineIdx_none_no_nl {l : Str} (h : lastNewlineIdx l = none) :
    ∀ k : Nat, l[k]? ≠ some nlChar := by
  induction l with
  | nil => intro k; simp
  | cons c rest ih =>
    simp only [lastNewlineIdx] at h
    cases hr : lastNewlineIdx rest with
    | some j' => rw [hr] at h; cases h
    | none =>
      rw [hr] at h
      by_cases hc : c = nlChar
      · rw [if_pos hc] at h; cases h
      · intro k
        cases k with
        | zero => simpa using hc
        | succ k' => simpa using ih hr k'

/-- No newline occurs after the index returned by `lastNewlineIdx`. -/
theorem lastNewlineIdx_last {l : Str} {j : Nat} (h : lastNewlineIdx l = some j) :
    ∀ k : Nat, j < k → l[k]? ≠ some nlChar := by
  induction l generalizing j with
  | nil => simp [lastNewlineIdx] at h
  | cons c rest ih =>
    intro k hk
    simp only [lastNewlineIdx] at h
    cases hr : lastNewlineIdx rest with
    | some j' =>
      rw [hr] at h
      cases h
      cases k with
      | zero => omega
      | succ k' => simpa using ih hr k' (by omega)
    | none =>
      rw [hr] at h
      by_cases hc : c = nlChar
      · rw [if_pos hc] at h
        cases h
        cases k with
        | zero => omega
        | succ k' => simpa using lastNewlineIdx_none_no_nl hr k'
      · rw [if_neg hc] at h
        cases h

/-- The `"Error: "` prefix. -/
def errorPfx : Str := ("Error: ").toList

/-- Every branch of the error normalizer yields a message starting with
`"Error: "`. -/
theorem handle_api_error_errorPfx (e : ApiException) :
    errorPfx <+: handle_api_error e := by
  have hgen : ∀ status : Nat, errorPfx <+: errMsgOtherStatus status := by
    intro status
    have h1 : errorPfx <+: ("Error: API request failed with status ").toList := by decide
    unfold errMsgOtherStatus
    exact h1.trans (List.prefix_append _ _)
  have hun : ∀ t m : Str, errorPfx <+: errMsgUnexpected t m := by
    intro t m
    have h1 : errorPfx <+: ("Error: Unexpected error occurred - ").toList := by decide
    unfold errMsgUnexpected
    exact h1.trans (List.prefix_append _ _)
  cases e with
  | httpStatusError status body =>
    simp only [handle_api_error]
    split
    · decide
    · split
      · decide
      · split
        · decide
        · split
          · decide
          · split
            · decide
            · exact hgen status
  | timeoutException => decide
  | connectError => decide
  | otherError t m => exact hun t m

-- ============================================================================
-- Claim C1
-- ============================================================================

/-- Claim C1: the error normalizer is total over the exception taxonomy,
always returns a non-empty string prefixed `"Error: "`, selects the
message by status code (401, 403, 404, 429, `>= 500`, other statuses a
generic message citing the status), and a 404 from mark-done yields
exactly the fixed not-found message regardless of the response body. -/
theorem claim_C1_error_normalizer :
    (∀ e : ApiException, handle_api_error e ≠ [] ∧ errorPfx <+: handle_api_error e)
    ∧ (∀ body : Str, handle_api_error (.httpStatusError 401 body) = errMsg401)
    ∧ (∀ body : Str, handle_api_error (.httpStatusError 403 body) = errMsg403)
    ∧ (∀ body : Str, handle_api_error (.httpStatusError 404 body) = errMsg404)
    ∧ (∀ body : Str, handle_api_error (.httpStatusError 429 body) = errMsg429)
    ∧ (∀ status : Nat, ∀ body : Str, 500 ≤ status →
        handle_api_error (.httpStatusError status body) = errMsg5xx)
    ∧ (∀ status : Nat, ∀ body : Str,
        status ≠ 401 → status ≠ 403 → status ≠ 404 → status ≠ 429 → status < 500 →
        handle_api_error (.httpStatusError status body) = errMsgOtherStatus status
        ∧ natStr status <:+: errMsgOtherStatus status)
    ∧ (∀ item_id body : Str,
        marvin_mark_done item_id (.error (.httpStatusError 404 body)) = errMsg404) := by
  refine ⟨?_, ?_, ?_, ?_, ?_, ?_, ?_, ?_⟩
  · intro e
    have hp := handle_api_error_errorPfx e
    refine ⟨?_, hp⟩
    intro hnil
    have := hp.length_le
    rw [hnil] at this
    simp [errorPfx] at this
  · intro body; rfl
  · intro body; rfl
  · intro body; rfl
  · intro body; rfl
  · intro status body h
    have h1 : status ≠ 401 := by omega
    have h2 : status ≠ 403 := by omega
    have h3 : status ≠ 404 := by omega
    have h4 : status ≠ 429 := by omega
    simp [handle_api_error, h1, h2, h3, h4, h]
  · intro status body h1 h2 h3 h4 h5
    constructor
    · have h6 : ¬ 500 ≤ status := by omega
      simp [handle_api_error, h1, h2, h3, h4, h6]
    · exact ⟨("Error: API request failed with status ").toList,
        (". Please try again.").toList, by simp [errMsgOtherStatus]⟩
  · intro item_id body; rfl

/-- Witness for C1: concrete instantiations discharging the status-range
hypotheses (503 for the 5xx branch, 418 for the generic branch). -/
theorem claim_C1_error_normalizer_witness :
    handle_api_error (.httpStatusError 503 []) = errMsg5xx
    ∧ (handle_api_error (.httpStatusError 418 []) = errMsgOtherStatus 418
       ∧ natStr 418 <:+: errMsgOtherStatus 418)
    ∧ marvin_mark_done (("task_missing").toList)
        (.error (.httpStatusError 404 (("any body content").toList))) = errMsg404 := by
  refine ⟨?_, ?_, ?_⟩
  · exact claim_C1_error_normalizer.2.2.2.2.2.1 503 [] (by decide)
  · exact claim_C1_error_normalizer.2.2.2.2.2.2.1 418 []
      (by decide) (by decide) (by decide) (by decide) (by decide)
  · exact claim_C1_error_normalizer.2.2.2.2.2.2.2 (("task_missing").toList)
      (("any body content").toList)

-- ============================================================================
-- Claim C9
-- ============================================================================

/-- Claim C9: the truncation guard's output depends only on its content
argument — the `items_count` parameter never influences the result. -/
theorem claim_C9_truncation_count_independent (content : Str) (k1 k2 : Nat) :
    truncate_response content k1 = truncate_response content k2 := rfl

-- ============================================================================
-- Claim C7
-- ============================================================================

/-- Claim C7: when the remote API returns an empty collection, each tool
short-circuits to its specific zero-result sentence, identically in
markdown and JSON modes: the today listing, the label listing and the
children listing. -/
theorem claim_C7_empty_short_circuit :
    (∀ date : Option Str, ∀ today : Str, ∀ fmt : ResponseFormat,
      marvin_get_todays_tasks date today fmt (.ok []) =
        ("No tasks scheduled for ").toList ++ target_dateOf date today ++ ['.'])
    ∧ (∀ fmt : ResponseFormat,
      marvin_get_labels fmt (.ok []) = ("No labels found.").toList)
    ∧ (∀ parent_id : Str, ∀ fmt : ResponseFormat,
      marvin_get_children parent_id fmt (.ok []) =
        ("No items found under parent ID: ").toList ++ parent_id) := by
  refine ⟨fun date today fmt => rfl, fun fmt => rfl, fun parent_id fmt => rfl⟩

-- ============================================================================
-- Claim C3
-- ============================================================================

/-- Claim C3: schema validation precedes network access — a raw input that
fails validation issues no API request, shown here for the add-task,
today-tasks and mark-done pipelines. -/
theorem claim_C3_no_network_on_invalid
    (rawA : RawAddTaskInput) (rawG : RawGetTasksInput) (rawM : RawMarkDoneInput)
    (today : Str) (eA eG eM : List Str)
    (hA : validateAddTask rawA = .error eA)
    (hG : validateGetTasks rawG = .error eG)
    (hM : validateMarkDone rawM = .error eM) :
    addTaskRequestTrace rawA = []
    ∧ todaysRequestTrace rawG today = []
    ∧ markDoneRequestTrace rawM = [] := by
  refine ⟨?_, ?_, ?_⟩
  · simp [addTaskRequestTrace, hA]
  · simp [todaysRequestTrace, hG]
  · simp [markDoneRequestTrace, hM]

/-- Witness for C3: an add-task payload with an out-of-range time
estimate, a get-tasks payload with a malformed date, and a mark-done
payload whose item id strips to empty, each issuing no request. -/
theorem claim_C3_no_network_on_invalid_witness :
    addTaskRequestTrace { title := some (("t").toList), time_estimate := some 100 } = []
    ∧ todaysRequestTrace { date := some (("2024-1-5").toList) } (("2024-03-15").toList) = []
    ∧ markDoneRequestTrace { item_id := some (("  ").toList) } = [] :=
  claim_C3_no_network_on_invalid
    { title := some (("t").toList), time_estimate := some 100 }
    { date := some (("2024-1-5").toList) }
    { item_id := some (("  ").toList) }
    (("2024-03-15").toList)
    (addTaskErrors { title := some (("t").toList), time_estimate := some 100 })
    (getTasksErrors { date := some (("2024-1-5").toList) })
    (markDoneErrors { item_id := some (("  ").toList) })
    (by rfl) (by rfl) (by rfl)

-- ============================================================================
-- Claim C8
-- ============================================================================

/-- Claim C8: the date-field check accepts exactly the full-string shape
four digits, dash, two digits, dash, two digits — including
calendar-invalid strings such as `"2024-13-40"` — and rejects every other
shape; it is pattern-only, never calendar validation.  The last conjunct
shows the add-task validator itself accepting a calendar-invalid `day`. -/
theorem claim_C8_date_pattern_only (s : Str) :
    (matchesDatePattern s = true ↔
      ∃ y1 y2 y3 y4 m1 m2 d1 d2 : Char,
        s = [y1, y2, y3, y4, '-', m1, m2, '-', d1, d2]
        ∧ y1.isDigit ∧ y2.isDigit ∧ y3.isDigit ∧ y4.isDigit
        ∧ m1.isDigit ∧ m2.isDigit ∧ d1.isDigit ∧ d2.isDigit)
    ∧ matchesDatePattern (("2024-13-40").toList) = true
    ∧ matchesDatePattern (("2024-1-05").toList) = false
    ∧ matchesDatePattern (("03/15/2024").toList) = false
    ∧ matchesDatePattern (("2024-03-15 ").toList) = false
    ∧ addTaskErrors { title := some (("t").toList), day := some (("2024-13-40").toList) } = [] := by
  refine ⟨?_, by decide, by decide, by decide, by decide, by rfl⟩
  constructor
  · intro h
    rcases s with _ | ⟨y1, _ | ⟨y2, _ | ⟨y3, _ | ⟨y4, _ | ⟨c5, _ | ⟨m1, _ | ⟨m2, _ | ⟨c8, _ | ⟨d1, _ | ⟨d2, _ | ⟨c11, rest⟩⟩⟩⟩⟩⟩⟩⟩⟩⟩⟩ <;>
      simp only [matchesDatePattern, Bool.and_eq_true, beq_iff_eq] at h <;>
      try exact (Bool.false_ne_true h).elim
    obtain ⟨⟨⟨⟨⟨⟨⟨⟨⟨h1, h2⟩, h3⟩, h4⟩, h5⟩, h6⟩, h7⟩, h8⟩, h9⟩, h10⟩ := h
    subst h5
    subst h8
    exact ⟨y1, y2, y3, y4, m1, m2, d1, d2, rfl, h1, h2, h3, h4, h6, h7, h9, h10⟩
  · rintro ⟨y1, y2, y3, y4, m1, m2, d1, d2, rfl, h1, h2, h3, h4, h6, h7, h9, h10⟩
    simp [matchesDatePattern, h1, h2, h3, h4, h6, h7, h9, h10]

-- ============================================================================
-- Claim C10
-- ============================================================================

/-- Keys of an ordered key-value list. -/
def keysOf (fields : List (Str × JValue)) : List Str := fields.map Prod.fst

/-- Keys contributed by an optional-field entry. -/
theorem keysOf_optEntry {α : Type} (k : Str) (f : α → JValue) (x : Option α) :
    keysOf (optEntry k f x) = if x.isSome then [k] else [] := by
  cases x <;> rfl

/-- `keysOf` distributes over concatenation. -/
theorem keysOf_append (a b : List (Str × JValue)) :
    keysOf (a ++ b) = keysOf a ++ keysOf b := by
  simp [keysOf]

/-- `keysOf` peels one explicit entry. -/
theorem keysOf_cons (k : Str) (v : JValue) (rest : List (Str × JValue)) :
    keysOf ((k, v) :: rest) = k :: keysOf rest := rfl

/-- `keysOf` of the empty body. -/
theorem keysOf_nil : keysOf [] = [] := rfl

/-- Values contributed by an optional-field entry come from its value
constructor. -/
theorem optEntry_values {α : Type} (k : Str) (f : α → JValue) (x : Option α) :
    ∀ kv ∈ optEntry k f x, ∃ v, kv.2 = f v := by
  cases x with
  | none => intro kv h; cases h
  | some v =>
    intro kv h
    rw [optEntry, List.mem_singleton] at h
    subst h
    exact ⟨v, rfl⟩

/-- Membership of a fixed key in the keys of the POST body, reduced to the
presence of the corresponding optional field. -/
theorem mem_keys_build (p : AddTaskInput) (key : Str) :
    (key ∈ keysOf (build_task_data p)) ↔
      (key = kTitle ∨ key = kDone
       ∨ (key = kNote ∧ p.note.isSome) ∨ (key = kDay ∧ p.day.isSome)
       ∨ (key = kDueDate ∧ p.due_date.isSome) ∨ (key = kParentId ∧ p.parent_id.isSome)
       ∨ (key = kLabelIds ∧ p.label_ids.isSome) ∨ (key = kTimeEstimate ∧ p.time_estimate.isSome)
       ∨ (key = kIsStarred ∧ p.is_starred.isSome)) := by
  simp only [build_task_data, List.append_assoc, keysOf_append, keysOf_optEntry,
    List.mem_append, keysOf_cons, keysOf_nil]
  constructor
  · rintro (h | h | h | h | h | h | h | h)
    · rw [List.mem_cons, List.mem_singleton] at h
      rcases h with h | h
      · exact Or.inl h
      · exact Or.inr (Or.inl h)
    · by_cases hs : p.note.isSome
      · rw [if_pos hs, List.mem_singleton] at h
        exact Or.inr (Or.inr (Or.inl ⟨h, hs⟩))
      · rw [if_neg hs] at h; cases h
    · by_cases hs : p.day.isSome
      · rw [if_pos hs, List.mem_singleton] at h
        exact Or.inr (Or.inr (Or.inr (Or.inl ⟨h, hs⟩)))
      · rw [if_neg hs] at h; cases h
    · by_cases hs : p.due_date.isSome
      · rw [if_pos hs, List.mem_singleton] at h
        exact Or.inr (Or.inr (Or.inr (Or.inr (Or.inl ⟨h, hs⟩))))
      · rw [if_neg hs] at h; cases h
    · by_cases hs : p.parent_id.isSome
      · rw [if_pos hs, List.mem_singleton] at h
        exact Or.inr (Or.inr (Or.inr (Or.inr (Or.inr (Or.inl ⟨h, hs⟩)))))
      · rw [if_neg hs] at h; cases h
    · by_cases hs : p.label_ids.isSome
      · rw [if_pos hs, List.mem_singleton] at h
        exact Or.inr (Or.inr (Or.inr (Or.inr (Or.inr (Or.inr (Or.inl ⟨h, hs⟩))))))
      · rw [if_neg hs] at h; cases h
    · by_cases hs : p.time_estimate.isSome
      · rw [if_pos hs, List.mem_singleton] at h
        exact Or.inr (Or.inr (Or.inr (Or.inr (Or.inr (Or.inr (Or.inr (Or.inl ⟨h, hs⟩)))))))
      · rw [if_neg hs] at h; cases h
    · by_cases hs : p.is_starred.isSome
      · rw [if_pos hs, List.mem_singleton] at h
        exact Or.inr (Or.inr (Or.inr (Or.inr (Or.inr (Or.inr (Or.inr (Or.inr ⟨h, hs⟩)))))))
      · rw [if_neg hs] at h; cases h
  · rintro (rfl | rfl | ⟨rfl, hs⟩ | ⟨rfl, hs⟩ | ⟨rfl, hs⟩ | ⟨rfl, hs⟩ | ⟨rfl, hs⟩ | ⟨rfl, hs⟩ | ⟨rfl, hs⟩)
    · exact Or.inl (by simp)
    · exact Or.inl (by simp)
    · exact Or.inr (Or.inl (by rw [if_pos hs]; simp))
    · exact Or.inr (Or.inr (Or.inl (by rw [if_pos hs]; simp)))
    · exact Or.inr (Or.inr (Or.inr (Or.inl (by rw [if_pos hs]; simp))))
    · exact Or.inr (Or.inr (Or.inr (Or.inr (Or.inl (by rw [if_pos hs]; simp)))))
    · exact Or.inr (Or.inr (Or.inr (Or.inr (Or.inr (Or.inl (by rw [if_pos hs]; simp))))))
    · exact Or.inr (Or.inr (Or.inr (Or.inr (Or.inr (Or.inr (Or.inl (by rw [if_pos hs]; simp)))))))
    · exact Or.inr (Or.inr (Or.inr (Or.inr (Or.inr (Or.inr (Or.inr (by rw [if_pos hs]; simp)))))))

/-- Claim C10: the POST body of add-task always contains the title and
`done: false`; each optional field contributes its key exactly when the
caller supplied it; and no value in the body is ever JSON null. -/
theorem claim_C10_post_body (p : AddTaskInput) :
    jlookup (build_task_data p) kTitle = some (JValue.str p.title)
    ∧ jlookup (build_task_data p) kDone = some (JValue.bool false)
    ∧ ((kNote ∈ keysOf (build_task_data p)) ↔ p.note.isSome)
    ∧ ((kDay ∈ keysOf (build_task_data p)) ↔ p.day.isSome)
    ∧ ((kDueDate ∈ keysOf (build_task_data p)) ↔ p.due_date.isSome)
    ∧ ((kParentId ∈ keysOf (build_task_data p)) ↔ p.parent_id.isSome)
    ∧ ((kLabelIds ∈ keysOf (build_task_data p)) ↔ p.label_ids.isSome)
    ∧ ((kTimeEstimate ∈ keysOf (build_task_data p)) ↔ p.time_estimate.isSome)
    ∧ ((kIsStarred ∈ keysOf (build_task_data p)) ↔ p.is_starred.isSome)
    ∧ (∀ kv ∈ build_task_data p, kv.2 ≠ JValue.null) := by
  refine ⟨?_, ?_, ?_, ?_, ?_, ?_, ?_, ?_, ?_, ?_⟩
  · simp +decide [build_task_data, jlookup]
  · simp +decide [build_task_data, jlookup]
  · rw [mem_keys_build]; simp +decide
  · rw [mem_keys_build]; simp +decide
  · rw [mem_keys_build]; simp +decide
  · rw [mem_keys_build]; simp +decide
  · rw [mem_keys_build]; simp +decide
  · rw [mem_keys_build]; simp +decide
  · rw [mem_keys_build]; simp +decide
  · intro kv hkv
    simp only [build_task_data, List.append_assoc, List.mem_append] at hkv
    rcases hkv with h | h | h | h | h | h | h | h
    · rcases List.mem_cons.mp h with h | h
      · rw [h]; simp
      · rcases List.mem_cons.mp h with h | h
        · rw [h]; simp
        · cases h
    · obtain ⟨v, hv⟩ := optEntry_values _ _ _ _ h; rw [hv]; simp
    · obtain ⟨v, hv⟩ := optEntry_values _ _ _ _ h; rw [hv]; simp
    · obtain ⟨v, hv⟩ := optEntry_values _ _ _ _ h; rw [hv]; simp
    · obtain ⟨v, hv⟩ := optEntry_values _ _ _ _ h; rw [hv]; simp
    · obtain ⟨v, hv⟩ := optEntry_values _ _ _ _ h; rw [hv]; simp
    · obtain ⟨v, hv⟩ := optEntry_values _ _ _ _ h; rw [hv]; simp
    · obtain ⟨v, hv⟩ := optEntry_values _ _ _ _ h; rw [hv]; simp

-- ============================================================================
-- Claim C2
-- ============================================================================

/-- `noticeA` splits around the literal `"Response Truncated"`. -/
theorem noticeA_decomp :
    noticeA = ("\n\n---\n**").toList ++ ("Response Truncated").toList ++
      ("**: Showing partial results due to size limit (").toList := by decide

/-- `noticeB` begins with the word `" characters"`. -/
theorem noticeB_decomp :
    noticeB = (" characters").toList ++
      ("). To see more:\n" ++
       "- Use pagination with `limit` and `offset` parameters\n" ++
       "- Add filters to narrow down results\n" ++
       "- Request specific items by ID\n").toList := by decide

/-- The truncation notice always begins with a blank-line separator. -/
theorem blankSep_prefix_notice (n : Nat) : ("\n\n").toList <+: truncationNotice n := by
  have h1 : ("\n\n").toList <+: noticeA := by decide
  rw [truncationNotice]
  exact (h1.trans (List.prefix_append _ _)).trans (List.prefix_append _ _)

/-- Claim C2: strings within the 25000-character budget pass unchanged;
longer ones are cut at 25000 characters, trimmed back to the nearest
preceding line boundary when one exists past the very start, and extended
with the truncation notice: the result is the trimmed prefix of the input
followed by the notice, its length is at most 25000 plus the notice
length, it contains the literal substring `"Response Truncated"`, and the
notice follows a blank-line separator and states the original character
count. -/
theorem claim_C2_truncation_guard (content : Str) (k : Nat)
    (h : CHARACTER_LIMIT < content.length) :
    (∀ c : Str, ∀ k2 : Nat, c.length ≤ CHARACTER_LIMIT → truncate_response c k2 = c)
    ∧ ∃ p : Str,
        truncate_response content k = p ++ truncationNotice content.length
        ∧ p.length ≤ CHARACTER_LIMIT
        ∧ p <+: content
        ∧ ((∃ j : Nat, 0 < j ∧ (content.take CHARACTER_LIMIT)[j]? = some nlChar
              ∧ p = (content.take CHARACTER_LIMIT).take j
              ∧ (∀ i : Nat, j < i → (content.take CHARACTER_LIMIT)[i]? ≠ some nlChar))
           ∨ ((∀ i : Nat, 0 < i → (content.take CHARACTER_LIMIT)[i]? ≠ some nlChar)
              ∧ p = content.take CHARACTER_LIMIT))
        ∧ ("Response Truncated").toList <:+: truncate_response content k
        ∧ ("\n\n").toList <+: truncationNotice content.length
        ∧ (commaFormat content.length ++ (" characters").toList) <:+:
            truncationNotice content.length := by
  have hshort : ∀ c : Str, ∀ k2 : Nat, c.length ≤ CHARACTER_LIMIT →
      truncate_response c k2 = c := by
    intro c k2 hc
    simp [truncate_response, hc]
  refine ⟨hshort, ?_⟩
  have hnle : ¬ content.length ≤ CHARACTER_LIMIT := by omega
  have htrlen : (content.take CHARACTER_LIMIT).length = CHARACTER_LIMIT := by
    rw [List.length_take]
    omega
  -- the trimmed content portion, by cases on the last-newline search
  have hmain : ∀ p : Str,
      p = (match lastNewlineIdx (content.take CHARACTER_LIMIT) with
           | some j => if 0 < j then (content.take CHARACTER_LIMIT).take j
                       else content.take CHARACTER_LIMIT
           | none => content.take CHARACTER_LIMIT) →
      truncate_response content k = p ++ truncationNotice content.length := by
    intro p hp
    simp only [truncate_response, if_neg hnle]
    rw [hp]
  set truncated := content.take CHARACTER_LIMIT with htr
  cases hnl : lastNewlineIdx truncated with
  | some j =>
    by_cases hj : 0 < j
    · refine ⟨truncated.take j, ?_, ?_, ?_, ?_, ?_, blankSep_prefix_notice _, ?_⟩
      · exact hmain (truncated.take j) (by rw [hnl]; simp [hj])
      · calc (truncated.take j).length ≤ truncated.length :=
              (List.take_prefix j truncated).length_le
          _ = CHARACTER_LIMIT := htrlen
      · exact (List.take_prefix j truncated).trans (List.take_prefix _ content)
      · exact Or.inl ⟨j, hj, lastNewlineIdx_mem hnl, rfl, lastNewlineIdx_last hnl⟩
      · -- "Response Truncated" is inside the appended notice
        have heq := hmain (truncated.take j) (by rw [hnl]; simp [hj])
        rw [heq, truncationNotice, noticeA_decomp]
        exact ⟨truncated.take j ++ ("\n\n---\n**").toList,
          ("**: Showing partial results due to size limit (").toList ++
            commaFormat content.length ++ noticeB, by simp [List.append_assoc]⟩
      · rw [truncationNotice, noticeB_decomp]
        exact ⟨noticeA, ("). To see more:\n" ++
          "- Use pagination with `limit` and `offset` parameters\n" ++
          "- Add filters to narrow down results\n" ++
          "- Request specific items by ID\n").toList, by simp [List.append_assoc]⟩
    · refine ⟨truncated, ?_, ?_, List.take_prefix _ content, ?_, ?_, blankSep_prefix_notice _, ?_⟩
      · exact hmain truncated (by rw [hnl]; simp [hj])
      · rw [htrlen]
      · refine Or.inr ⟨?_, rfl⟩
        intro i hi
        have hj0 : j = 0 := by omega
        subst hj0
        exact lastNewlineIdx_last hnl i hi
      · have heq := hmain truncated (by rw [hnl]; simp [hj])
        rw [heq, truncationNotice, noticeA_decomp]
        exact ⟨truncated ++ ("\n\n---\n**").toList,
          ("**: Showing partial results due to size limit (").toList ++
            commaFormat content.length ++ noticeB, by simp [List.append_assoc]⟩
      · rw [truncationNotice, noticeB_decomp]
        exact ⟨noticeA, ("). To see more:\n" ++
          "- Use pagination with `limit` and `offset` parameters\n" ++
          "- Add filters to narrow down results\n" ++
          "- Request specific items by ID\n").toList, by simp [List.append_assoc]⟩
  | none =>
    refine ⟨truncated, ?_, ?_, List.take_prefix _ content, ?_, ?_, blankSep_prefix_notice _, ?_⟩
    · exact hmain truncated (by rw [hnl])
    · rw [htrlen]
    · exact Or.inr ⟨fun i _ => lastNewlineIdx_none_no_nl hnl i, rfl⟩
    · have heq := hmain truncated (by rw [hnl])
      rw [heq, truncationNotice, noticeA_decomp]
      exact ⟨truncated ++ ("\n\n---\n**").toList,
        ("**: Showing partial results due to size limit (").toList ++
          commaFormat content.length ++ noticeB, by simp [List.append_assoc]⟩
    · rw [truncationNotice, noticeB_decomp]
      exact ⟨noticeA, ("). To see more:\n" ++
        "- Use pagination with `limit` and `offset` parameters\n" ++
        "- Add filters to narrow down results\n" ++
        "- Request specific items by ID\n").toList, by simp [List.append_assoc]⟩

/-- Witness for C2: a 25001-character input, discharging the
over-the-limit hypothesis. -/
theorem claim_C2_truncation_guard_witness :
    CHARACTER_LIMIT < (List.replicate 25001 'a').length
    ∧ ((∀ c : Str, ∀ k2 : Nat, c.length ≤ CHARACTER_LIMIT → truncate_response c k2 = c)
       ∧ ∃ p : Str,
          truncate_response (List.replicate 25001 'a') 0 =
            p ++ truncationNotice (List.replicate 25001 'a').length
          ∧ p.length ≤ CHARACTER_LIMIT
          ∧ p <+: List.replicate 25001 'a'
          ∧ ((∃ j : Nat, 0 < j ∧ ((List.replicate 25001 'a').take CHARACTER_LIMIT)[j]? = some nlChar
                ∧ p = ((List.replicate 25001 'a').take CHARACTER_LIMIT).take j
                ∧ (∀ i : Nat, j < i →
                    ((List.replicate 25001 'a').take CHARACTER_LIMIT)[i]? ≠ some nlChar))
             ∨ ((∀ i : Nat, 0 < i →
                    ((List.replicate 25001 'a').take CHARACTER_LIMIT)[i]? ≠ some nlChar)
                ∧ p = (List.replicate 25001 'a').take CHARACTER_LIMIT))
          ∧ ("Response Truncated").toList <:+: truncate_response (List.replicate 25001 'a') 0
          ∧ ("\n\n").toList <+: truncationNotice (List.replicate 25001 'a').length
          ∧ (commaFormat (List.replicate 25001 'a').length ++ (" characters").toList) <:+:
              truncationNotice (List.replicate 25001 'a').length) :=
  ⟨by norm_num [CHARACTER_LIMIT],
   claim_C2_truncation_guard (List.replicate 25001 'a') 0 (by norm_num [CHARACTER_LIMIT])⟩

-- ============================================================================
-- Claim C6
-- ============================================================================

/-- Claim C6: for a due-task record carrying a (truthy) due date, days
overdue is the whole-day floor difference between the reference date and
the due date; a positive difference tags the markdown heading
`" [OVERDUE]"` and adds an equal `daysOverdue` JSON field, a zero
difference tags `" [DUE TODAY]"` and adds no JSON field. -/
theorem claim_C6_days_overdue (targetMs : Int) (t : RemoteRecord) (d : Int)
    (hd : t.dueDate = some d) (hnz : d ≠ 0) :
    daysDiffOf targetMs t = (targetMs - d).fdiv 86400000
    ∧ (0 < daysDiffOf targetMs t →
        (dueTaskBlock targetMs t).headD [] =
          hdPfx ++ (if truthyBool t.done then doneGlyph else notDoneGlyph) ++
            (' ' :: t.title.getD untitled) ++ overdueTag
        ∧ jlookup (dueJsonTask targetMs t) kDaysOverdue =
            some (JValue.num (daysDiffOf targetMs t)))
    ∧ (daysDiffOf targetMs t = 0 →
        (dueTaskBlock targetMs t).headD [] =
          hdPfx ++ (if truthyBool t.done then doneGlyph else notDoneGlyph) ++
            (' ' :: t.title.getD untitled) ++ dueTodayTag
        ∧ jlookup (dueJsonTask targetMs t) kDaysOverdue = none) := by
  have htr : truthyInt t.dueDate = true := by
    simp [truthyInt, hd, bne_iff_ne, hnz]
  refine ⟨by simp [daysDiffOf, hd], ?_, ?_⟩
  · intro hpos
    constructor
    · simp [dueTaskBlock, overdueTagOf, htr, hpos]
    · simp +decide [dueJsonTask, jlookup, htr, hpos]
  · intro hzero
    constructor
    · simp [dueTaskBlock, overdueTagOf, htr, hzero]
    · simp +decide [dueJsonTask, jlookup, htr, hzero]

/-- Witness for C6: a due date of 1970-01-02 checked against reference
dates two days and one day after the epoch (differences 1 and 0). -/
theorem claim_C6_days_overdue_witness :
    (0 < daysDiffOf 172800000 ({ dueDate := some 86400000 } : RemoteRecord)
     ∧ jlookup (dueJsonTask 172800000 ({ dueDate := some 86400000 } : RemoteRecord)) kDaysOverdue
         = some (JValue.num (daysDiffOf 172800000 ({ dueDate := some 86400000 } : RemoteRecord))))
    ∧ (daysDiffOf 86400000 ({ dueDate := some 86400000 } : RemoteRecord) = 0
       ∧ jlookup (dueJsonTask 86400000 ({ dueDate := some 86400000 } : RemoteRecord)) kDaysOverdue
           = none) := by
  constructor
  · exact ⟨by decide,
      ((claim_C6_days_overdue 172800000 _ 86400000 rfl (by decide)).2.1 (by decide)).2⟩
  · exact ⟨by decide,
      ((claim_C6_days_overdue 86400000 _ 86400000 rfl (by decide)).2.2 (by decide)).2⟩

-- ============================================================================
-- Rendering extraction (for the markdown/JSON correspondence claims)
-- ============================================================================

/-- The lines of a markdown block carrying a given prefix, with the prefix
stripped: re-extraction of a field from the rendered markdown. -/
def linesWith (pfx : Str) (lines : List Str) : List Str :=
  (lines.filter (fun l => pfx.isPrefixOf l)).map (fun l => l.drop pfx.length)

/-- The heading line of a markdown block. -/
def headingOf (block : List Str) : Str := block.headD []

/-- Done flag re-extracted from a markdown block: whether the heading
starts with the done glyph. -/
def mdDoneOf (block : List Str) : Bool :=
  (hdPfx ++ doneGlyph ++ [' ']).isPrefixOf (headingOf block)

/-- Title re-extracted from a markdown block: the heading with the three
heading-marker characters, the three glyph characters and the separating
space removed. -/
def mdTitleOf (block : List Str) : Str := (headingOf block).drop 7

/-- String re-extraction from a JSON field lookup, with a default. -/
def jsonStrD (v : Option JValue) (dflt : Str) : Str :=
  match v with
  | some (JValue.str s) => s
  | _ => dflt

/-- String re-extraction from a JSON field lookup, as a zero-or-one
element list (null and absent become the empty list). -/
def jsonStrList (v : Option JValue) : List Str :=
  match v with
  | some (JValue.str s) => [s]
  | _ => []

/-- The per-task field lists of a JSON listing response. -/
def jsonTasksOf (resp : JValue) : List (List (Str × JValue)) :=
  match resp with
  | JValue.obj fields =>
    match jlookup fields kTasks with
    | some (JValue.arr xs) =>
      xs.map (fun x => match x with | JValue.obj kvs => kvs | _ => [])
    | _ => []
  | _ => []

-- Prefix-classification facts: each markdown line kind is recognised by
-- exactly one field prefix.

/-- `idPfx` does not begin a heading line. -/
theorem idPfx_np_hd (s : Str) : idPfx.isPrefixOf (hdPfx ++ s) = false :=
  isPrefixOf_append_false _ _ _ (by decide)

/-- `idPfx` does not begin a due line. -/
theorem idPfx_np_due (s : Str) : idPfx.isPrefixOf (duePfx ++ s) = false :=
  isPrefixOf_append_false _ _ _ (by decide)

/-- `idPfx` does not begin an estimate line. -/
theorem idPfx_np_est (s : Str) : idPfx.isPrefixOf (estPfx ++ s) = false :=
  isPrefixOf_append_false _ _ _ (by decide)

/-- `idPfx` does not begin a project line. -/
theorem idPfx_np_proj (s : Str) : idPfx.isPrefixOf (projPfx ++ s) = false :=
  isPrefixOf_append_false _ _ _ (by decide)

/-- `idPfx` does not begin a note line. -/
theorem idPfx_np_note (s : Str) : idPfx.isPrefixOf (notePfx ++ s) = false :=
  isPrefixOf_append_false _ _ _ (by decide)

/-- `idPfx` does not begin the blank line. -/
theorem idPfx_np_nil : idPfx.isPrefixOf ([] : Str) = false := by decide

/-- `duePfx` does not begin a heading line. -/
theorem duePfx_np_hd (s : Str) : duePfx.isPrefixOf (hdPfx ++ s) = false :=
  isPrefixOf_append_false _ _ _ (by decide)

/-- `duePfx` does not begin an ID line. -/
theorem duePfx_np_id (s : Str) : duePfx.isPrefixOf (idPfx ++ s) = false :=
  isPrefixOf_append_false _ _ _ (by decide)

/-- `duePfx` does not begin an estimate line. -/
theorem duePfx_np_est (s : Str) : duePfx.isPrefixOf (estPfx ++ s) = false :=
  isPrefixOf_append_false _ _ _ (by decide)

/-- `duePfx` does not begin a project line. -/
theorem duePfx_np_proj (s : Str) : duePfx.isPrefixOf (projPfx ++ s) = false :=
  isPrefixOf_append_false _ _ _ (by decide)

/-- `duePfx` does not begin a note line. -/
theorem duePfx_np_note (s : Str) : duePfx.isPrefixOf (notePfx ++ s) = false :=
  isPrefixOf_append_false _ _ _ (by decide)

/-- `duePfx` does not begin the blank line. -/
theorem duePfx_np_nil : duePfx.isPrefixOf ([] : Str) = false := by decide

/-- `estPfx` does not begin a heading line. -/
theorem estPfx_np_hd (s : Str) : estPfx.isPrefixOf (hdPfx ++ s) = false :=
  isPrefixOf_append_false _ _ _ (by decide)

/-- `estPfx` does not begin an ID line. -/
theorem estPfx_np_id (s : Str) : estPfx.isPrefixOf (idPfx ++ s) = false :=
  isPrefixOf_append_false _ _ _ (by decide)

/-- `estPfx` does not begin a due line. -/
theorem estPfx_np_due (s : Str) : estPfx.isPrefixOf (duePfx ++ s) = false :=
  isPrefixOf_append_false _ _ _ (by decide)

/-- `estPfx` does not begin a project line. -/
theorem estPfx_np_proj (s : Str) : estPfx.isPrefixOf (projPfx ++ s) = false :=
  isPrefixOf_append_false _ _ _ (by decide)

/-- `estPfx` does not begin a note line. -/
theorem estPfx_np_note (s : Str) : estPfx.isPrefixOf (notePfx ++ s) = false :=
  isPrefixOf_append_false _ _ _ (by decide)

/-- `estPfx` does not begin the blank line. -/
theorem estPfx_np_nil : estPfx.isPrefixOf ([] : Str) = false := by decide

/-- `projPfx` does not begin a heading line. -/
theorem projPfx_np_hd (s : Str) : projPfx.isPrefixOf (hdPfx ++ s) = false :=
  isPrefixOf_append_false _ _ _ (by decide)

/-- `projPfx` does not begin an ID line. -/
theorem projPfx_np_id (s : Str) : projPfx.isPrefixOf (idPfx ++ s) = false :=
  isPrefixOf_append_false _ _ _ (by decide)

/-- `projPfx` does not begin a due line. -/
theorem projPfx_np_due (s : Str) : projPfx.isPrefixOf (duePfx ++ s) = false :=
  isPrefixOf_append_false _ _ _ (by decide)

/-- `projPfx` does not begin an estimate line. -/
theorem projPfx_np_est (s : Str) : projPfx.isPrefixOf (estPfx ++ s) = false :=
  isPrefixOf_append_false _ _ _ (by decide)

/-- `projPfx` does not begin a note line. -/
theorem projPfx_np_note (s : Str) : projPfx.isPrefixOf (notePfx ++ s) = false :=
  isPrefixOf_append_false _ _ _ (by decide)

/-- `projPfx` does not begin the blank line. -/
theorem projPfx_np_nil : projPfx.isPrefixOf ([] : Str) = false := by decide

/-- `notePfx` does not begin a heading line. -/
theorem notePfx_np_hd (s : Str) : notePfx.isPrefixOf (hdPfx ++ s) = false :=
  isPrefixOf_append_false _ _ _ (by decide)

/-- `notePfx` does not begin an ID line. -/
theorem notePfx_np_id (s : Str) : notePfx.isPrefixOf (idPfx ++ s) = false :=
  isPrefixOf_append_false _ _ _ (by decide)

/-- `notePfx` does not begin a due line. -/
theorem notePfx_np_due (s : Str) : notePfx.isPrefixOf (duePfx ++ s) = false :=
  isPrefixOf_append_false _ _ _ (by decide)

/-- `notePfx` does not begin an estimate line. -/
theorem notePfx_np_est (s : Str) : notePfx.isPrefixOf (estPfx ++ s) = false :=
  isPrefixOf_append_false _ _ _ (by decide)

/-- `notePfx` does not begin a project line. -/
theorem notePfx_np_proj (s : Str) : notePfx.isPrefixOf (projPfx ++ s) = false :=
  isPrefixOf_append_false _ _ _ (by decide)

/-- `notePfx` does not begin the blank line. -/
theorem notePfx_np_nil : notePfx.isPrefixOf ([] : Str) = false := by decide

-- Extraction lemmas for the today-listing markdown block

/-- The ID line of a today block. -/
theorem todayBlock_id_lines (t : RemoteRecord) :
    linesWith idPfx (todayTaskBlock t) = [t._id.getD []] := by
  by_cases h1 : truthyInt t.dueDate <;> by_cases h2 : truthyInt t.timeEstimate <;>
    by_cases h3 : truthyStr t.parentId <;> by_cases h4 : truthyStr t.note <;>
    simp [todayTaskBlock, linesWith, List.append_assoc, h1, h2, h3, h4,
      isPrefixOf_self_append, idPfx_np_hd, idPfx_np_due, idPfx_np_est, idPfx_np_proj,
      idPfx_np_note, idPfx_np_nil, List.drop_left]

/-- The due line of a today block: present exactly for a truthy due date. -/
theorem todayBlock_due_lines (t : RemoteRecord) :
    linesWith duePfx (todayTaskBlock t) =
      (if truthyInt t.dueDate then [format_timestamp t.dueDate notSet] else []) := by
  by_cases h1 : truthyInt t.dueDate <;> by_cases h2 : truthyInt t.timeEstimate <;>
    by_cases h3 : truthyStr t.parentId <;> by_cases h4 : truthyStr t.note <;>
    simp [todayTaskBlock, linesWith, List.append_assoc, h1, h2, h3, h4,
      isPrefixOf_self_append, duePfx_np_hd, duePfx_np_id, duePfx_np_est, duePfx_np_proj,
      duePfx_np_note, duePfx_np_nil, List.drop_left]

/-- The estimate line of a today block. -/
theorem todayBlock_est_lines (t : RemoteRecord) :
    linesWith estPfx (todayTaskBlock t) =
      (if truthyInt t.timeEstimate then [format_time_estimate t.timeEstimate] else []) := by
  by_cases h1 : truthyInt t.dueDate <;> by_cases h2 : truthyInt t.timeEstimate <;>
    by_cases h3 : truthyStr t.parentId <;> by_cases h4 : truthyStr t.note <;>
    simp [todayTaskBlock, linesWith, List.append_assoc, h1, h2, h3, h4,
      isPrefixOf_self_append, estPfx_np_hd, estPfx_np_id, estPfx_np_due, estPfx_np_proj,
      estPfx_np_note, estPfx_np_nil, List.drop_left]

/-- The project line of a today block. -/
theorem todayBlock_proj_lines (t : RemoteRecord) :
    linesWith projPfx (todayTaskBlock t) =
      (if truthyStr t.parentId then [t.parentId.getD []] else []) := by
  by_cases h1 : truthyInt t.dueDate <;> by_cases h2 : truthyInt t.timeEstimate <;>
    by_cases h3 : truthyStr t.parentId <;> by_cases h4 : truthyStr t.note <;>
    simp [todayTaskBlock, linesWith, List.append_assoc, h1, h2, h3, h4,
      isPrefixOf_self_append, projPfx_np_hd, projPfx_np_id, projPfx_np_due, projPfx_np_est,
      projPfx_np_note, projPfx_np_nil, List.drop_left]

/-- The note line of a today block: truncated to 200 characters. -/
theorem todayBlock_note_lines (t : RemoteRecord) :
    linesWith notePfx (todayTaskBlock t) =
      (if truthyStr t.note then [(t.note.getD []).take 200] else []) := by
  by_cases h1 : truthyInt t.dueDate <;> by_cases h2 : truthyInt t.timeEstimate <;>
    by_cases h3 : truthyStr t.parentId <;> by_cases h4 : truthyStr t.note <;>
    simp [todayTaskBlock, linesWith, List.append_assoc, h1, h2, h3, h4,
      isPrefixOf_self_append, notePfx_np_hd, notePfx_np_id, notePfx_np_due, notePfx_np_est,
      notePfx_np_proj, notePfx_np_nil, List.drop_left]

/-- The heading of a today block. -/
theorem todayBlock_heading (t : RemoteRecord) :
    headingOf (todayTaskBlock t) =
      hdPfx ++ (if truthyBool t.done then doneGlyph else notDoneGlyph) ++
        (' ' :: t.title.getD untitled) := by
  simp [todayTaskBlock, headingOf]

-- Extraction lemmas for the due-listing markdown block

/-- The ID line of a due block. -/
theorem dueBlock_id_lines (tms : Int) (t : RemoteRecord) :
    linesWith idPfx (dueTaskBlock tms t) = [t._id.getD []] := by
  by_cases h2 : truthyInt t.timeEstimate <;> by_cases h4 : truthyStr t.note <;>
    simp [dueTaskBlock, linesWith, List.append_assoc, h2, h4,
      isPrefixOf_self_append, idPfx_np_hd, idPfx_np_due, idPfx_np_est,
      idPfx_np_note, idPfx_np_nil, List.drop_left]

/-- The due line of a due block: always present, showing the formatted due
date or the `"Not set"` placeholder. -/
theorem dueBlock_due_lines (tms : Int) (t : RemoteRecord) :
    linesWith duePfx (dueTaskBlock tms t) = [format_timestamp t.dueDate notSet] := by
  by_cases h2 : truthyInt t.timeEstimate <;> by_cases h4 : truthyStr t.note <;>
    simp [dueTaskBlock, linesWith, List.append_assoc, h2, h4,
      isPrefixOf_self_append, duePfx_np_hd, duePfx_np_id, duePfx_np_est,
      duePfx_np_note, duePfx_np_nil, List.drop_left]

/-- The estimate line of a due block. -/
theorem dueBlock_est_lines (tms : Int) (t : RemoteRecord) :
    linesWith estPfx (dueTaskBlock tms t) =
      (if truthyInt t.timeEstimate then [format_time_estimate t.timeEstimate] else []) := by
  by_cases h2 : truthyInt t.timeEstimate <;> by_cases h4 : truthyStr t.note <;>
    simp [dueTaskBlock, linesWith, List.append_assoc, h2, h4,
      isPrefixOf_self_append, estPfx_np_hd, estPfx_np_id, estPfx_np_due,
      estPfx_np_note, estPfx_np_nil, List.drop_left]

/-- The note line of a due block: shown in markdown, truncated to 200. -/
theorem dueBlock_note_lines (tms : Int) (t : RemoteRecord) :
    linesWith notePfx (dueTaskBlock tms t) =
      (if truthyStr t.note then [(t.note.getD []).take 200] else []) := by
  by_cases h2 : truthyInt t.timeEstimate <;> by_cases h4 : truthyStr t.note <;>
    simp [dueTaskBlock, linesWith, List.append_assoc, h2, h4,
      isPrefixOf_self_append, notePfx_np_hd, notePfx_np_id, notePfx_np_due,
      notePfx_np_est, notePfx_np_nil, List.drop_left]

/-- The heading of a due block, carrying the overdue tag. -/
theorem dueBlock_heading (tms : Int) (t : RemoteRecord) :
    headingOf (dueTaskBlock tms t) =
      hdPfx ++ (if truthyBool t.done then doneGlyph else notDoneGlyph) ++
        (' ' :: t.title.getD untitled) ++ overdueTagOf tms t := by
  simp [dueTaskBlock, headingOf]

-- Heading decoding

/-- The done-glyph test on a heading decodes the done flag. -/
theorem mdDoneOf_eq (b : Bool) (rest : Str) :
    (hdPfx ++ doneGlyph ++ [' ']).isPrefixOf
      (hdPfx ++ (if b then doneGlyph else notDoneGlyph) ++ (' ' :: rest)) = b := by
  cases b
  · simp only [Bool.false_eq_true, if_false]
    exact isPrefixOf_append_false _ _ _ (by decide)
  · simp only [if_true]
    have he : (hdPfx ++ doneGlyph) ++ (' ' :: rest) = ((hdPfx ++ doneGlyph) ++ [' ']) ++ rest := by
      simp
    rw [he]
    exact isPrefixOf_self_append _ _

/-- Dropping the seven heading characters recovers the heading rest. -/
theorem mdTitle_drop (b : Bool) (rest : Str) :
    (hdPfx ++ (if b then doneGlyph else notDoneGlyph) ++ (' ' :: rest)).drop 7 = rest := by
  cases b
  · simp only [Bool.false_eq_true, if_false]
    have he : (hdPfx ++ notDoneGlyph) ++ (' ' :: rest) = ((hdPfx ++ notDoneGlyph) ++ [' ']) ++ rest := by
      simp
    rw [he]
    exact List.drop_left' (by decide)
  · simp only [if_true]
    have he : (hdPfx ++ doneGlyph) ++ (' ' :: rest) = ((hdPfx ++ doneGlyph) ++ [' ']) ++ rest := by
      simp
    rw [he]
    exact List.drop_left' (by decide)

/-- Done flag re-extracted from a today block. -/
theorem mdDoneOf_todayBlock (t : RemoteRecord) :
    mdDoneOf (todayTaskBlock t) = truthyBool t.done := by
  rw [mdDoneOf, todayBlock_heading]
  exact mdDoneOf_eq _ _

/-- Title re-extracted from a today block. -/
theorem mdTitleOf_todayBlock (t : RemoteRecord) :
    mdTitleOf (todayTaskBlock t) = t.title.getD untitled := by
  rw [mdTitleOf, todayBlock_heading]
  exact mdTitle_drop _ _

/-- Done flag re-extracted from a due block. -/
theorem mdDoneOf_dueBlock (tms : Int) (t : RemoteRecord) :
    mdDoneOf (dueTaskBlock tms t) = truthyBool t.done := by
  rw [mdDoneOf, dueBlock_heading]
  have he : hdPfx ++ (if truthyBool t.done then doneGlyph else notDoneGlyph) ++
        (' ' :: t.title.getD untitled) ++ overdueTagOf tms t
      = hdPfx ++ (if truthyBool t.done then doneGlyph else notDoneGlyph) ++
        (' ' :: (t.title.getD untitled ++ overdueTagOf tms t)) := by
    simp
  rw [he]
  exact mdDoneOf_eq _ _

/-- Title re-extracted from a due block: the record title followed by the
overdue tag. -/
theorem mdTitleOf_dueBlock (tms : Int) (t : RemoteRecord) :
    mdTitleOf (dueTaskBlock tms t) = t.title.getD untitled ++ overdueTagOf tms t := by
  rw [mdTitleOf, dueBlock_heading]
  have he : hdPfx ++ (if truthyBool t.done then doneGlyph else notDoneGlyph) ++
        (' ' :: t.title.getD untitled) ++ overdueTagOf tms t
      = hdPfx ++ (if truthyBool t.done then doneGlyph else notDoneGlyph) ++
        (' ' :: (t.title.getD untitled ++ overdueTagOf tms t)) := by
    simp
  rw [he]
  exact mdTitle_drop _ _

-- JSON field lemmas

/-- The `id` field of a today JSON task. -/
theorem todayJson_id (t : RemoteRecord) :
    jlookup (todayJsonTask t) kId = some (optJStr t._id) := rfl

/-- The `title` field of a today JSON task. -/
theorem todayJson_title (t : RemoteRecord) :
    jlookup (todayJsonTask t) kTitle = some (optJStr t.title) := rfl

/-- The `done` field of a today JSON task. -/
theorem todayJson_done (t : RemoteRecord) :
    jlookup (todayJsonTask t) kDone = some (JValue.bool (t.done.getD false)) := rfl

/-- The `dueDate` field of a today JSON task. -/
theorem todayJson_due (t : RemoteRecord) :
    jlookup (todayJsonTask t) kDueDate =
      some (if truthyInt t.dueDate then JValue.str (format_timestamp t.dueDate notSet)
            else JValue.null) := rfl

/-- The `timeEstimate` field of a today JSON task. -/
theorem todayJson_est (t : RemoteRecord) :
    jlookup (todayJsonTask t) kTimeEstimate =
      some (if truthyInt t.timeEstimate then JValue.str (format_time_estimate t.timeEstimate)
            else JValue.null) := rfl

/-- The `parentId` field of a today JSON task. -/
theorem todayJson_parent (t : RemoteRecord) :
    jlookup (todayJsonTask t) kParentId = some (optJStr t.parentId) := rfl

/-- The `note` field of a today JSON task: the full note, untruncated. -/
theorem todayJson_note (t : RemoteRecord) :
    jlookup (todayJsonTask t) kNote = some (optJStr t.note) := rfl

/-- The `id` field of a due JSON task. -/
theorem dueJson_id (tms : Int) (t : RemoteRecord) :
    jlookup (dueJsonTask tms t) kId = some (optJStr t._id) := rfl

/-- The `title` field of a due JSON task. -/
theorem dueJson_title (tms : Int) (t : RemoteRecord) :
    jlookup (dueJsonTask tms t) kTitle = some (optJStr t.title) := rfl

/-- The `done` field of a due JSON task. -/
theorem dueJson_done (tms : Int) (t : RemoteRecord) :
    jlookup (dueJsonTask tms t) kDone = some (JValue.bool (t.done.getD false)) := rfl

/-- The `dueDate` field of a due JSON task. -/
theorem dueJson_due (tms : Int) (t : RemoteRecord) :
    jlookup (dueJsonTask tms t) kDueDate =
      some (if truthyInt t.dueDate then JValue.str (format_timestamp t.dueDate notSet)
            else JValue.null) := rfl

/-- The `timeEstimate` field of a due JSON task. -/
theorem dueJson_est (tms : Int) (t : RemoteRecord) :
    jlookup (dueJsonTask tms t) kTimeEstimate =
      some (if truthyInt t.timeEstimate then JValue.str (format_time_estimate t.timeEstimate)
            else JValue.null) := rfl

/-- A due JSON task has no `note` field. -/
theorem dueJson_note (tms : Int) (t : RemoteRecord) :
    jlookup (dueJsonTask tms t) kNote = none := by
  by_cases h1 : truthyInt t.dueDate
  · by_cases h2 : 0 < daysDiffOf tms t <;>
      simp +decide [dueJsonTask, jlookup, h1, h2]
  · simp +decide [dueJsonTask, jlookup, h1]

/-- The JSON task array of the today response is the per-record object
list, in order. -/
theorem jsonTasksOf_today (date : Str) (tasks : List RemoteRecord) :
    jsonTasksOf (todayJsonResponse date tasks) = tasks.map todayJsonTask := by
  show (tasks.map (fun t => JValue.obj (todayJsonTask t))).map
      (fun x => match x with | JValue.obj kvs => kvs | _ => []) = tasks.map todayJsonTask
  rw [List.map_map]
  rfl

/-- The JSON task array of the due response is the per-record object
list, in order. -/
theorem jsonTasksOf_due (date : Str) (tms : Int) (tasks : List RemoteRecord) :
    jsonTasksOf (dueJsonResponse date tms tasks) = tasks.map (dueJsonTask tms) := by
  show (tasks.map (fun t => JValue.obj (dueJsonTask tms t))).map
      (fun x => match x with | JValue.obj kvs => kvs | _ => []) = tasks.map (dueJsonTask tms)
  rw [List.map_map]
  rfl

/-- String re-extraction of an optional-string JSON field is the Python
`get`-with-default. -/
theorem jsonStrD_optJStr (x : Option Str) (d : Str) :
    jsonStrD (some (optJStr x)) d = x.getD d := by
  cases x <;> rfl

/-- Python truthiness of an optional boolean is `get`-with-default. -/
theorem truthyBool_getD (x : Option Bool) : truthyBool x = x.getD false := by
  cases x <;> rfl

-- ============================================================================
-- Claim C4
-- ============================================================================

/-- Claim C4 counterexample: the due-task markdown block displays a note
that the JSON object of the same record does not carry at all — the two
renderings of the due tool are not informationally equivalent. -/
theorem claim_C4_note_counterexample :
    (notePfx ++ ("secret").toList) ∈
      dueTaskBlock 0 ({ note := some (("secret").toList) } : RemoteRecord)
    ∧ jlookup (dueJsonTask 0 ({ note := some (("secret").toList) } : RemoteRecord)) kNote
        = none := by
  constructor
  · decide
  · rfl

/-- Claim C4 (amended): per record and in both renderings, identifier,
title, done flag, formatted due date and formatted time estimate carry the
same derived values (markdown omitting a line exactly where JSON carries
null, except the due listing's markdown always shows a Due line with the
`"Not set"` placeholder); full informational equivalence fails for notes —
the due-listing JSON omits the note shown in markdown, and markdown note
lines are truncated to 200 characters while the today-listing JSON
carries the note in full. -/
theorem claim_C4_field_correspondence (t : RemoteRecord) (tms : Int) :
    (linesWith idPfx (todayTaskBlock t) = [jsonStrD (jlookup (todayJsonTask t) kId) []]
     ∧ mdTitleOf (todayTaskBlock t) = jsonStrD (jlookup (todayJsonTask t) kTitle) untitled
     ∧ some (JValue.bool (mdDoneOf (todayTaskBlock t))) = jlookup (todayJsonTask t) kDone
     ∧ linesWith duePfx (todayTaskBlock t) = jsonStrList (jlookup (todayJsonTask t) kDueDate)
     ∧ linesWith estPfx (todayTaskBlock t) = jsonStrList (jlookup (todayJsonTask t) kTimeEstimate)
     ∧ linesWith projPfx (todayTaskBlock t) =
         (if truthyStr t.parentId then [jsonStrD (jlookup (todayJsonTask t) kParentId) []] else [])
     ∧ linesWith notePfx (todayTaskBlock t) =
         (if truthyStr t.note then [(jsonStrD (jlookup (todayJsonTask t) kNote) []).take 200] else []))
    ∧ (linesWith idPfx (dueTaskBlock tms t) = [jsonStrD (jlookup (dueJsonTask tms t) kId) []]
       ∧ some (JValue.bool (mdDoneOf (dueTaskBlock tms t))) = jlookup (dueJsonTask tms t) kDone
       ∧ mdTitleOf (dueTaskBlock tms t) =
           jsonStrD (jlookup (dueJsonTask tms t) kTitle) untitled ++ overdueTagOf tms t
       ∧ linesWith estPfx (dueTaskBlock tms t) = jsonStrList (jlookup (dueJsonTask tms t) kTimeEstimate)
       ∧ linesWith duePfx (dueTaskBlock tms t) = [format_timestamp t.dueDate notSet]
       ∧ jlookup (dueJsonTask tms t) kDueDate =
           some (if truthyInt t.dueDate then JValue.str (format_timestamp t.dueDate notSet)
                 else JValue.null)
       ∧ linesWith notePfx (dueTaskBlock tms t) =
           (if truthyStr t.note then [(t.note.getD []).take 200] else [])
       ∧ jlookup (dueJsonTask tms t) kNote = none) := by
  refine ⟨⟨?_, ?_, ?_, ?_, ?_, ?_, ?_⟩, ⟨?_, ?_, ?_, ?_, ?_, ?_, ?_, ?_⟩⟩
  · rw [todayBlock_id_lines, todayJson_id, jsonStrD_optJStr]
  · rw [mdTitleOf_todayBlock, todayJson_title, jsonStrD_optJStr]
  · rw [mdDoneOf_todayBlock, todayJson_done, truthyBool_getD]
  · rw [todayBlock_due_lines, todayJson_due]
    by_cases h : truthyInt t.dueDate <;> simp [h, jsonStrList]
  · rw [todayBlock_est_lines, todayJson_est]
    by_cases h : truthyInt t.timeEstimate <;> simp [h, jsonStrList]
  · rw [todayBlock_proj_lines, todayJson_parent, jsonStrD_optJStr]
  · rw [todayBlock_note_lines, todayJson_note, jsonStrD_optJStr]
  · rw [dueBlock_id_lines, dueJson_id, jsonStrD_optJStr]
  · rw [mdDoneOf_dueBlock, dueJson_done, truthyBool_getD]
  · rw [mdTitleOf_dueBlock, dueJson_title, jsonStrD_optJStr]
  · rw [dueBlock_est_lines, dueJson_est]
    by_cases h : truthyInt t.timeEstimate <;> simp [h, jsonStrList]
  · rw [dueBlock_due_lines]
  · rw [dueJson_due]
  · rw [dueBlock_note_lines]
  · rw [dueJson_note]

-- ============================================================================
-- Claim C5
-- ============================================================================

/-- Claim C5: re-extracting the per-record identifiers, titles and done
flags from the JSON rendering yields the same values, in the same order,
as extraction from the sequence of markdown blocks: neither renderer
reorders, drops or duplicates records (due-listing markdown titles carry
the overdue tag after the record title). -/
theorem claim_C5_order_preserving (target_date : Str) (tms : Int)
    (tasks : List RemoteRecord) :
    ((jsonTasksOf (todayJsonResponse target_date tasks)).length = tasks.length
     ∧ (tasks.map todayTaskBlock).length = tasks.length
     ∧ (jsonTasksOf (todayJsonResponse target_date tasks)).map
         (fun kvs => jsonStrD (jlookup kvs kId) [])
         = (tasks.map todayTaskBlock).map (fun b => (linesWith idPfx b).flatten)
     ∧ (jsonTasksOf (todayJsonResponse target_date tasks)).map
         (fun kvs => jsonStrD (jlookup kvs kTitle) untitled)
         = (tasks.map todayTaskBlock).map mdTitleOf
     ∧ (jsonTasksOf (todayJsonResponse target_date tasks)).map
         (fun kvs => jlookup kvs kDone)
         = (tasks.map todayTaskBlock).map (fun b => some (JValue.bool (mdDoneOf b))))
    ∧ ((jsonTasksOf (dueJsonResponse target_date tms tasks)).map
         (fun kvs => jsonStrD (jlookup kvs kId) [])
         = (tasks.map (dueTaskBlock tms)).map (fun b => (linesWith idPfx b).flatten)
       ∧ (jsonTasksOf (dueJsonResponse target_date tms tasks)).map
           (fun kvs => jlookup kvs kDone)
           = (tasks.map (dueTaskBlock tms)).map (fun b => some (JValue.bool (mdDoneOf b)))
       ∧ (tasks.map (dueTaskBlock tms)).map mdTitleOf
           = List.zipWith (fun a b => a ++ b)
               ((jsonTasksOf (dueJsonResponse target_date tms tasks)).map
                 (fun kvs => jsonStrD (jlookup kvs kTitle) untitled))
               (tasks.map (overdueTagOf tms))) := by
  refine ⟨⟨?_, ?_, ?_, ?_, ?_⟩, ⟨?_, ?_, ?_⟩⟩
  · rw [jsonTasksOf_today, List.length_map]
  · rw [List.length_map]
  · rw [jsonTasksOf_today, List.map_map, List.map_map]
    apply List.map_congr_left
    intro t ht
    simp only [Function.comp_apply, todayJson_id, jsonStrD_optJStr, todayBlock_id_lines,
      List.flatten]
    simp
  · rw [jsonTasksOf_today, List.map_map, List.map_map]
    apply List.map_congr_left
    intro t ht
    simp only [Function.comp_apply, todayJson_title, jsonStrD_optJStr, mdTitleOf_todayBlock]
  · rw [jsonTasksOf_today, List.map_map, List.map_map]
    apply List.map_congr_left
    intro t ht
    simp only [Function.comp_apply, todayJson_done, mdDoneOf_todayBlock, truthyBool_getD]
  · rw [jsonTasksOf_due, List.map_map, List.map_map]
    apply List.map_congr_left
    intro t ht
    simp only [Function.comp_apply, dueJson_id, jsonStrD_optJStr, dueBlock_id_lines,
      List.flatten]
    simp
  · rw [jsonTasksOf_due, List.map_map, List.map_map]
    apply List.map_congr_left
    intro t ht
    simp only [Function.comp_apply, dueJson_done, mdDoneOf_dueBlock, truthyBool_getD]
  · rw [jsonTasksOf_due, List.map_map, List.map_map]
    induction tasks with
    | nil => rfl
    | cons t ts ih =>
      simp only [List.map_cons, List.zipWith_cons_cons, ih]
      congr 1
      simp only [Function.comp_apply, mdTitleOf_dueBlock, dueJson_title, jsonStrD_optJStr]

/-- Witness for C8: the calendar-invalid string accepted by the pattern,
via the claim theorem at that concrete input. -/
theorem claim_C8_date_pattern_only_witness :
    matchesDatePattern (("2024-13-40").toList) = true :=
  (claim_C8_date_pattern_only (("2024-13-40").toList)).2.1

/-- Witness for C10: a concrete validated input with only a time estimate
supplied, discharging the membership hypothesis of the no-null conjunct at
the title entry. -/
theorem claim_C10_post_body_witness :
    jlookup (build_task_data { title := ("t").toList, time_estimate := some 900000 }) kTitle
      = some (JValue.str (("t").toList))
    ∧ (kTitle, JValue.str (("t").toList)).2 ≠ JValue.null :=
  ⟨(claim_C10_post_body { title := ("t").toList, time_estimate := some 900000 }).1,
   (claim_C10_post_body { title := ("t").toList, time_estimate := some 900000 }).2.2.2.2.2.2.2.2.2
     (kTitle, JValue.str (("t").toList)) (by simp [build_task_data, optEntry])⟩

end AmazingMarvin
